import Mathlib

/-!
Verification of the educational JavaScript runtime simulator
(tree-walking interpreter + dual-mode event-loop scheduler).

The definitions below are a shallow embedding of the engine sources:
  - `src/engine/types.ts`      (SimPromise, signals, queue/task/timer records)
  - `src/engine/environment.ts` (lexical scope chain)
  - `src/engine/interpreter.ts` (tree-walking evaluator)
  - `src/engine/builtins.ts`   (global environment population)
  - `src/engine/eventLoop.ts`  (ExecutionEngine, browser and node loops)

Modelling conventions:
  * The engine is single-threaded with one global mutable engine object;
    we thread an explicit `EngineState` value instead.
  * Host exceptions are modelled by the `Res.thrown` completion; the
    control-flow sentinel objects (ReturnSignal, BreakSignal, ContinueSignal,
    SUSPENDED) are the remaining `Res` constructors, mirroring the fact that
    in the source they are ordinary return values while throws unwind.
  * Closures stored in queues and promise handlers are defunctionalized:
    every closure the engine ever enqueues is one of finitely many shapes
    (a wrapped user/native callback, a promise-reaction from `_flush`,
    a resolve/reject forwarder, or an `await` continuation), captured by
    the `Callback`, `WrapTarget` and `PCb` inductives.
  * JS numbers are modelled by integers plus NaN/Infinity markers; the
    claim programs only exercise integral arithmetic.  The host RNG
    (`Math.random`) is modelled as an oracle list carried in the state.
  * The AST covers the node kinds exercised by the verified claims
    (literals, identifiers, calls, members, arrows, await, expression
    statements, function declarations, return, throw, try).  Node kinds
    outside this subset hit the interpreter's silent default and are not
    representable here.  Built-ins not exercised by any claim
    (JSON, Array, Date, parseInt/parseFloat, Promise.all/race,
    requestAnimationFrame) are omitted from the global environment.
  * General recursion (interpreter re-entered from scheduler callbacks)
    is made structural with a `fuel` parameter that bounds call depth;
    every concrete theorem instantiates fuel large enough that it is
    never exhausted, and invariant theorems hold for every fuel.
-/

namespace JSRT

/-! ## AST (ESTree subset delivered by the black-box parser) -/

inductive LitVal where
  | str (s : String)
  | int (n : Int)
  | bool (b : Bool)
  | nul
  deriving DecidableEq, Repr

/-- ESTree-shaped nodes (statements and expressions share one type, as the
source interpreter dispatches a single `evaluate` on `node.type`).
Statement constructors carry their `loc.start.line`. -/
inductive Node where
  | lit (v : LitVal)
  | ident (name : String)
  /-- non-computed member access `object.prop` -/
  | member (object : Node) (propName : String)
  | call (callee : Node) (args : List Node) (line : Int)
  | arrow (params : List String) (body : Node) (isAsync : Bool) (line : Int)
  | awaitE (argument : Node)
  | exprStmt (expression : Node) (line : Int)
  | funcDecl (name : String) (params : List String) (body : Node)
      (isAsync : Bool) (line : Int)
  | returnStmt (argument : Option Node) (line : Int)
  | throwStmt (argument : Node) (line : Int)
  | tryStmt (block : List Node) (handlerParam : Option String)
      (handlerBody : Option (List Node)) (finalizer : Option (List Node))
      (line : Int)
  | blockStmt (body : List Node) (line : Int)
  deriving Repr

/-- `loc.start.line` of a statement (all parsed statements carry loc info). -/
def Node.line : Node → Int
  | .lit _ => 0
  | .ident _ => 0
  | .member _ _ => 0
  | .call _ _ l => l
  | .arrow _ _ _ l => l
  | .awaitE _ => 0
  | .exprStmt _ l => l
  | .funcDecl _ _ _ _ l => l
  | .returnStmt _ l => l
  | .throwStmt _ l => l
  | .tryStmt _ _ _ _ l => l
  | .blockStmt _ l => l

/-! ## Runtime values -/

/-- `RuntimeFunction` from types.ts: immutable after creation. -/
structure RuntimeFn where
  name : String
  params : List String
  body : Node
  closure : Nat          -- environment id
  isAsync : Bool
  isArrow : Bool
  line : Int             -- node.loc.start.line for the stack frame
  deriving Repr

/-- Defunctionalized `NativeFunction` handles (builtins.ts).
`resolveFn`/`rejectFn` are the executor arguments built inside the
`Promise` constructor builtin. -/
inductive NativeFn where
  | consoleLog | consoleWarn | consoleError
  | setTimeoutN | setIntervalN
  | clearTimeoutN | clearIntervalN
  | promiseCtor | promiseResolveN | promiseRejectN
  | queueMicrotaskN
  | requestAnimationFrameN
  | processNextTickN | setImmediateN
  | resolveFn (p : Nat) | rejectFn (p : Nat)
  deriving DecidableEq, Repr

/-- `NativeFunction.name` as populated in builtins.ts. -/
def NativeFn.name : NativeFn → String
  | .consoleLog => "console.log"
  | .consoleWarn => "console.warn"
  | .consoleError => "console.error"
  | .setTimeoutN => "setTimeout"
  | .setIntervalN => "setInterval"
  | .clearTimeoutN => "clearTimeout"
  | .clearIntervalN => "clearInterval"
  | .promiseCtor => "Promise"
  | .promiseResolveN => "Promise.resolve"
  | .promiseRejectN => "Promise.reject"
  | .queueMicrotaskN => "queueMicrotask"
  | .requestAnimationFrameN => "requestAnimationFrame"
  | .processNextTickN => "process.nextTick"
  | .setImmediateN => "setImmediate"
  | .resolveFn _ => "resolve"
  | .rejectFn _ => "reject"

/-- Raw host functions stored as plain properties (the `Math` object holds
host `Math.*` functions, not `NativeFunction` wrappers, so calling them
takes the `typeof callee === 'function'` fast path in `evalCall`).
`mathRandom` samples the host RNG, modelled by the oracle. -/
inductive HostFn where
  | mathRandom
  | mathFloor
  | mathAbs
  deriving DecidableEq, Repr

inductive Value where
  | undef
  | nullV
  | bool (b : Bool)
  | num (n : Int)
  | nan
  | inf
  | str (s : String)
  | object (props : List (String × Value))
  | arr (elems : List Value)
  | fn (f : RuntimeFn)
  | native (nf : NativeFn)
  | hostFn (h : HostFn)
  | promise (p : Nat)
  | hostErr (msg : String)   -- a host `Error` object stored as a value
  deriving Repr

/-- A thrown JS value: either a user value (from `throw expr`) or a host
`Error` the interpreter itself constructs (`new Error(...)` in the TS). -/
inductive ThrownVal where
  | userVal (v : Value)
  | hostError (msg : String)
  deriving Repr

def ThrownVal.toValue : ThrownVal → Value
  | .userVal v => v
  | .hostError m => .hostErr m

/-! ## Promise machinery (types.ts `SimPromise`) -/

inductive PState where
  | pending | fulfilled | rejected
  deriving DecidableEq, Repr

/-- Defunctionalized promise handler callback: the closures ever passed to
`SimPromise.then` by the engine. -/
inductive PCb where
  /-- `(val) => engine.callUserFunction(fn, [val])` (wrapFn on a RuntimeFunction) -/
  | user (f : RuntimeFn)
  /-- `fn.fn` (wrapFn on a NativeFunction) -/
  | nativeCb (nf : NativeFn)
  /-- a raw host function accepted by wrapFn's `typeof fn === 'function'` case -/
  | hostCb (h : HostFn)
  /-- `(v) => target.resolve(v)` (promise adoption / child forwarding /
      `return await` continuation) -/
  | resolveTarget (p : Nat)
  /-- `(r) => target.reject(r)` -/
  | rejectTarget (p : Nat)
  /-- `SimPromise.finally` closures: run `f` (if any), then forward the
      value (`rethrow = false`) or rethrow the reason (`rethrow = true`) -/
  | finallyCb (f : Option RuntimeFn) (rethrow : Bool)
  /-- the resolved-continuation of `_evalExprStmtAwait`: run the captured
      remaining statements in the captured scope, then settle the async
      promise unless suspended again -/
  | awaitContExpr (remaining : List Node) (env : Nat) (asyncP : Nat)
  deriving Repr

structure Handler where
  onFulfilled : Option PCb
  onRejected : Option PCb
  childPromise : Nat
  deriving Repr

structure PromiseData where
  state : PState
  value : Value
  handlers : List Handler
  deriving Repr

/-! ## Queued tasks and timers (eventLoop.ts) -/

/-- Argument-less wrapped callbacks built by the builtins (`wrappedCb`).
`invalid` is the silent no-op taken when the scheduled value is not
callable (e.g. `queueMicrotask(0)`). -/
inductive WrapTarget where
  | userFn (f : RuntimeFn)
  | nativeFn (nf : NativeFn)
  | hostF (h : HostFn)
  /-- `requestAnimationFrame`: the callback is invoked with the current
  virtual time as its single argument. -/
  | rafFn (f : RuntimeFn)
  | rafHostF (h : HostFn)
  | invalid
  deriving Repr

/-- Defunctionalized `QueuedTask.callback` closures. -/
inductive Callback where
  | wrapped (w : WrapTarget)
  /-- the microtask closure scheduled by `SimPromise._flush` -/
  | promiseReaction (cb : Option PCb) (childPromise : Nat)
      (isFulfilled : Bool) (val : Value)
  deriving Repr

structure QueuedTask where
  id : String
  label : String
  callback : Callback
  source : String
  deriving Repr

inductive TimerKind where
  | timeout | interval
  deriving DecidableEq, Repr

def TimerKind.sourceTag : TimerKind → String
  | .timeout => "timeout"
  | .interval => "interval"

structure WebAPIEntry where
  id : Nat
  label : String
  delay : Int
  startTime : Int
  callback : Callback
  type : TimerKind
  cleared : Bool
  deriving Repr

/-! ## Trace steps -/

inductive StepType where
  | PUSH_STACK | POP_STACK | HIGHLIGHT_LINE
  | SCHEDULE_MICROTASK | DEQUEUE_MICROTASK | EXECUTE_MICROTASK
  | SCHEDULE_MACROTASK | DEQUEUE_MACROTASK | EXECUTE_MACROTASK
  | REGISTER_WEB_API | RESOLVE_WEB_API
  | EVENT_LOOP_CHECK
  | CONSOLE_LOG | CONSOLE_WARN | CONSOLE_ERROR
  deriving DecidableEq, Repr

/-- Payload record: the union of the keys of all emitted payloads.
String ids (`frame-N`, `micro-N`, `macro-N`, `check-N`) use `idStr`;
numeric timer ids use `idNum`. -/
structure Payload where
  idStr : Option String := none
  idNum : Option Nat := none
  name : Option String := none
  label : Option String := none
  source : Option String := none
  phase : Option String := none
  delay : Option Int := none
  lineP : Option Int := none
  args : Option (List String) := none
  raw : Option (List Value) := none
  deriving Repr

structure Step where
  type : StepType
  payload : Payload
  line : Option Int := none
  timestamp : Int
  deriving Repr

structure StackFrame where
  id : String
  name : String
  line : Int
  deriving DecidableEq, Repr

inductive CType where
  | log | warn | error
  deriving DecidableEq, Repr

structure ConsoleEntry where
  ctype : CType
  args : List String
  timestamp : Int
  deriving DecidableEq, Repr

/-! ## Scope chain (environment.ts) -/

inductive VKind where
  | klet | kconst | kvar
  deriving DecidableEq, Repr

structure VarEntry where
  value : Value
  kind : VKind
  deriving Repr

structure EnvData where
  vars : List (String × VarEntry)
  parent : Option Nat
  isFunctionScope : Bool
  deriving Repr

/-! ## Engine state -/

inductive RuntimeMode where
  | browser | node
  deriving DecidableEq, Repr

/-- The whole mutable state of one `ExecutionEngine` plus the module-level
id counters (`_stepId`, `_taskId`, `_timerId`, `_promiseIdCounter`), the
environment and promise heaps, and the host-RNG oracle. -/
structure EngineState where
  steps : List Step
  callStack : List StackFrame      -- head = top of stack
  consoleOutput : List ConsoleEntry
  errors : List String
  mode : RuntimeMode
  currentTime : Int
  microtaskQueue : List QueuedTask
  macrotaskQueue : List QueuedTask
  checkQueue : List QueuedTask
  webAPIs : List WebAPIEntry
  stepId : Nat
  taskId : Nat
  timerId : Nat
  envs : List EnvData              -- environment heap, ids are indices
  promises : List PromiseData      -- promise heap, ids are indices
  oracle : List Int                -- host Math.random outputs
  deriving Repr

def initState (mode : RuntimeMode) (oracle : List Int) : EngineState :=
  { steps := [], callStack := [], consoleOutput := [], errors := []
    mode := mode, currentTime := 0
    microtaskQueue := [], macrotaskQueue := [], checkQueue := []
    webAPIs := [], stepId := 0, taskId := 0, timerId := 0
    envs := [], promises := [], oracle := oracle }

/-! ## Basic engine operations -/

/-- `engine.emit`: append the step (timestamping with the virtual clock) and
mirror console steps into `consoleOutput`. -/
def emit (s : EngineState) (type : StepType) (payload : Payload)
    (line : Option Int := none) : EngineState :=
  let step : Step := { type, payload, line, timestamp := s.currentTime }
  let s := { s with steps := s.steps ++ [step] }
  match type with
  | .CONSOLE_LOG =>
      { s with consoleOutput := s.consoleOutput ++
          [⟨.log, payload.args.getD [], s.currentTime⟩] }
  | .CONSOLE_WARN =>
      { s with consoleOutput := s.consoleOutput ++
          [⟨.warn, payload.args.getD [], s.currentTime⟩] }
  | .CONSOLE_ERROR =>
      { s with consoleOutput := s.consoleOutput ++
          [⟨.error, payload.args.getD [], s.currentTime⟩] }
  | _ => s

/-- `engine.pushStack` -/
def pushStack (s : EngineState) (name : String) (line : Int := 0) :
    EngineState :=
  let sid := s.stepId + 1
  let frame : StackFrame := ⟨s!"frame-{sid}", name, line⟩
  let s := { s with stepId := sid, callStack := frame :: s.callStack }
  emit s .PUSH_STACK
    { name := some name, lineP := some line, idStr := some frame.id }
    (some line)

/-- `engine.popStack` (emits only when a frame exists). -/
def popStack (s : EngineState) : EngineState :=
  match s.callStack with
  | [] => s
  | frame :: rest =>
      let s := { s with callStack := rest }
      emit s .POP_STACK { name := some frame.name, idStr := some frame.id }

/-- `engine.scheduleMicrotask`: `process.nextTick` tasks go to the FRONT of
the queue, everything else is appended.  (No step is emitted here.) -/
def scheduleMicrotask (s : EngineState) (label : String) (cb : Callback)
    (source : String) : EngineState :=
  let tid := s.taskId + 1
  let task : QueuedTask := ⟨s!"micro-{tid}", label, cb, source⟩
  if source = "process.nextTick" then
    { s with taskId := tid, microtaskQueue := task :: s.microtaskQueue }
  else
    { s with taskId := tid, microtaskQueue := s.microtaskQueue ++ [task] }

/-- `engine.scheduleMacrotask` (used by `requestAnimationFrame`): append
the task and emit a SCHEDULE_MACROTASK carrying the fresh task id. -/
def scheduleMacrotask (s : EngineState) (label : String) (cb : Callback)
    (source : String) : EngineState :=
  let tid := s.taskId + 1
  let task : QueuedTask := ⟨s!"macro-{tid}", label, cb, source⟩
  let s := { s with taskId := tid,
                    macrotaskQueue := s.macrotaskQueue ++ [task] }
  emit s .SCHEDULE_MACROTASK
    { idStr := some task.id, label := some label, source := some source }

/-- `engine.scheduleCheck` (node `setImmediate` queue). -/
def scheduleCheck (s : EngineState) (label : String) (cb : Callback)
    (source : String) : EngineState :=
  let tid := s.taskId + 1
  let task : QueuedTask := ⟨s!"check-{tid}", label, cb, source⟩
  let s := { s with taskId := tid, checkQueue := s.checkQueue ++ [task] }
  emit s .SCHEDULE_MACROTASK
    { idStr := some task.id, label := some label, source := some source }

/-- `engine.registerTimer` -/
def registerTimer (s : EngineState) (label : String) (delay : Int)
    (cb : Callback) (type : TimerKind) : Nat × EngineState :=
  let tid := s.timerId + 1
  let entry : WebAPIEntry :=
    ⟨tid, label, delay, s.currentTime, cb, type, false⟩
  (tid, { s with timerId := tid, webAPIs := s.webAPIs ++ [entry] })

/-- mark the first timer entry with the given id cleared (`Array.find`). -/
def markCleared (id : Nat) : List WebAPIEntry → List WebAPIEntry
  | [] => []
  | w :: ws =>
      if w.id = id then { w with cleared := true } :: ws
      else w :: markCleared id ws

/-- `engine.clearTimer`: find by id (ignoring the timer kind) and mark
cleared; silently does nothing when no entry matches. -/
def clearTimer (s : EngineState) (id : Nat) : EngineState :=
  { s with webAPIs := markCleared id s.webAPIs }

/-- `engine.createPromise` (ids are heap indices; the source's
`promise-${n}` display id is derivable and never emitted). -/
def createPromise (s : EngineState) : Nat × EngineState :=
  (s.promises.length,
   { s with promises := s.promises ++ [⟨.pending, .undef, []⟩] })

def getPromise (s : EngineState) (p : Nat) : Option PromiseData :=
  s.promises.get? p

def setPromise (s : EngineState) (p : Nat) (d : PromiseData) : EngineState :=
  { s with promises := s.promises.set p d }

/-- `engine._handleError`: push to errors and emit `CONSOLE_ERROR`. -/
def jsHostString (v : Value) : String :=
  match v with
  | .str s => s
  | .num n => toString n
  | .nan => "NaN"
  | .inf => "Infinity"
  | .bool b => if b then "true" else "false"
  | .undef => "undefined"
  | .nullV => "null"
  | .hostErr m => m
  | _ => "[object Object]"

def handleError (s : EngineState) (e : ThrownVal) : EngineState :=
  let msg := match e with
    | .hostError m => m
    | .userVal v => jsHostString v
  let s := { s with errors := s.errors ++ [msg] }
  emit s .CONSOLE_ERROR { args := some [msg] }

/-! ## Environment operations (environment.ts)

The parent chain is walked with a fuel bound; since every child's id is
strictly greater than its parent's, `s.envs.length` steps always suffice. -/

def getEnv (s : EngineState) (e : Nat) : Option EnvData := s.envs.get? e

def setEnv (s : EngineState) (e : Nat) (d : EnvData) : EngineState :=
  { s with envs := s.envs.set e d }

/-- `Environment.createChild` (heap-allocating). -/
def createChildEnv (s : EngineState) (parent : Nat) (isFunctionScope : Bool) :
    Nat × EngineState :=
  (s.envs.length,
   { s with envs := s.envs ++ [⟨[], some parent, isFunctionScope⟩] })

/-- JS `Map.set`: replace in place when the key exists, otherwise append. -/
def varsSet (name : String) (entry : VarEntry) :
    List (String × VarEntry) → List (String × VarEntry)
  | [] => [(name, entry)]
  | (k, v) :: rest =>
      if k = name then (k, entry) :: rest
      else (k, v) :: varsSet name entry rest

def varsGet (name : String) : List (String × VarEntry) → Option VarEntry
  | [] => none
  | (k, v) :: rest => if k = name then some v else varsGet name rest

/-- `Environment._functionScope`: walk to the nearest function scope
(or the root). -/
def functionScope (s : EngineState) : Nat → Nat → Nat
  | 0, e => e
  | fuel + 1, e =>
      match getEnv s e with
      | none => e
      | some d =>
          if d.isFunctionScope then e
          else match d.parent with
            | none => e
            | some p => functionScope s fuel p

/-- `Environment.define`: `var` hoists to the nearest function scope. -/
def envDefine (s : EngineState) (e : Nat) (name : String) (v : Value)
    (kind : VKind) : EngineState :=
  let target := if kind = .kvar then functionScope s s.envs.length e else e
  match getEnv s target with
  | none => s
  | some d => setEnv s target { d with vars := varsSet name ⟨v, kind⟩ d.vars }

/-- `Environment.get`: nearest binding, else a ReferenceError (returned as
`none`; the caller throws). -/
def envGet (s : EngineState) : Nat → Nat → String → Option Value
  | 0, _, _ => none
  | fuel + 1, e, name =>
      match getEnv s e with
      | none => none
      | some d =>
          match varsGet name d.vars with
          | some entry => some entry.value
          | none =>
              match d.parent with
              | none => none
              | some p => envGet s fuel p name

def envHas (s : EngineState) : Nat → Nat → String → Bool
  | 0, _, _ => false
  | fuel + 1, e, name =>
      match getEnv s e with
      | none => false
      | some d =>
          match varsGet name d.vars with
          | some _ => true
          | none =>
              match d.parent with
              | none => false
              | some p => envHas s fuel p name

inductive SetOutcome where
  | ok (s : EngineState)
  | constErr (name : String)
  | notFound
  deriving Repr

/-- `Environment.set`: walk the parent chain; `const` reassignment is a
TypeError, a missing name a ReferenceError. -/
def envSet (s : EngineState) : Nat → Nat → String → Value → SetOutcome
  | 0, _, _, _ => .notFound
  | fuel + 1, e, name, v =>
      match getEnv s e with
      | none => .notFound
      | some d =>
          match varsGet name d.vars with
          | some entry =>
              if entry.kind = .kconst then .constErr name
              else .ok (setEnv s e
                { d with vars := varsSet name ⟨v, entry.kind⟩ d.vars })
          | none =>
              match d.parent with
              | none => .notFound
              | some p => envSet s fuel p name v

/-! ## Coercions and stringification (interpreter.ts helpers) -/

/-- `isTruthy(v) = !!v` over the modelled value domain. -/
def isTruthy : Value → Bool
  | .undef => false
  | .nullV => false
  | .bool b => b
  | .num n => n ≠ 0
  | .nan => false
  | .inf => true
  | .str s => s ≠ ""
  | _ => true

/-- `stringify` (needs promise states from the heap). -/
def stringifyF (s : EngineState) : Nat → Value → String
  | _, .undef => "undefined"
  | _, .nullV => "null"
  | _, .fn f =>
      let nm := if f.name = "" then "anonymous" else f.name
      s!"[Function: {nm}]"
  | _, .native nf => s!"[Function: {nf.name}]"
  | _, .promise p =>
      let st := match getPromise s p with
        | some d => match d.state with
            | .pending => "pending"
            | .fulfilled => "fulfilled"
            | .rejected => "rejected"
        | none => "pending"
      "Promise \x7b<" ++ st ++ ">\x7d"
  | fuel + 1, .arr elems =>
      "[" ++ String.intercalate ", " (elems.map (stringifyF s fuel)) ++ "]"
  | fuel + 1, .object props =>
      "\x7b " ++ String.intercalate ", "
        (props.map (fun kv => kv.1 ++ ": " ++ stringifyF s fuel kv.2)) ++
        " \x7d"
  | _, .arr _ => "[...]"
  | _, .object _ => "\x7b...\x7d"
  | _, .bool b => if b then "true" else "false"
  | _, .num n => toString n
  | _, .nan => "NaN"
  | _, .inf => "Infinity"
  | _, .str str => str
  | _, .hostFn _ => "[Function]"
  | _, .hostErr m => m

def stringify (s : EngineState) (v : Value) : String := stringifyF s 32 v

/-- `toNumber` (result is a number-like value: `num`, `nan` or `inf`). -/
def toNumber : Value → Value
  | .num n => .num n
  | .nan => .nan
  | .inf => .inf
  | .str s => if s = "" then .num 0 else
      match s.toInt? with
      | some n => .num n
      | none => .nan
  | .bool b => .num (if b then 1 else 0)
  | .nullV => .num 0
  | .undef => .num 0   -- the source maps BOTH null and undefined to 0
  | _ => .nan

/-- property lookup `obj[prop]` over the modelled value domain (plain JS
property access in the source).  The `Promise` builtin is a
`NativeFunction` carrying the attached statics `resolve`/`reject`. -/
def getProp (v : Value) (prop : String) : Value :=
  match v with
  | .object props =>
      match props.lookup prop with
      | some pv => pv
      | none => .undef
  | .native .promiseCtor =>
      if prop = "resolve" then .native .promiseResolveN
      else if prop = "reject" then .native .promiseRejectN
      else .undef
  | _ => (.undef)

/-! ## Interpreter completions -/

/-- The result of one evaluation step: a plain value, one of the
control-flow sentinel objects (which the source returns as ordinary
values), or a host exception unwinding the interpreter. -/
inductive Res where
  | val (v : Value)
  | ret (v : Value)
  | brk (label : Option String)
  | cont (label : Option String)
  | susp
  | thrown (e : ThrownVal)
  deriving Repr

/-- Sequence a value-producing evaluation; any non-value completion
(signal or throw) short-circuits exactly as in the source, where throws
unwind and sentinel results are passed outward. -/
def bindV (r : Res × EngineState)
    (k : Value → EngineState → Res × EngineState) : Res × EngineState :=
  match r with
  | (.val v, s) => k v s
  | other => other

def litToValue : LitVal → Value
  | .str s => .str s
  | .int n => .num n
  | .bool b => .bool b
  | .nul => .nullV

def Node.isFnDecl : Node → Bool
  | .funcDecl .. => true
  | _ => false

/-- `node.callee.name ?? node.callee.property?.name ?? '?'` -/
def calleeName : Node → String
  | .ident n => n
  | .member _ p => p
  | _ => "?"

/-- apply a raw host function (the `Math.*` values); `Math.random` samples
the host RNG oracle. -/
def hostApply (s : EngineState) (h : HostFn) (_thisVal : Value)
    (args : List Value) : Value × EngineState :=
  match h with
  | .mathRandom =>
      match s.oracle with
      | [] => (.num 0, s)
      | r :: rest => (.num r, { s with oracle := rest })
  | .mathFloor => (toNumber (args.headD .undef), s)  -- identity on integers
  | .mathAbs =>
      (match toNumber (args.headD .undef) with
       | .num n => .num n.natAbs
       | v => v, s)

/-- `wrappedCb` as built by setTimeout / setInterval / queueMicrotask
(these builtins also accept a `NativeFunction` callback). -/
def wrapCallbackN : Value → WrapTarget
  | .fn f => .userFn f
  | .native nf => .nativeFn nf
  | .hostFn h => .hostF h
  | _ => .invalid

/-- `wrappedCb` as built by process.nextTick / setImmediate (no
`NativeFunction` branch in the source). -/
def wrapCallbackNT : Value → WrapTarget
  | .fn f => .userFn f
  | .hostFn h => .hostF h
  | _ => .invalid

/-- `wrappedCb` as built by requestAnimationFrame (no NativeFunction
branch; the callback receives `engine.currentTime`). -/
def wrapCallbackRAF : Value → WrapTarget
  | .fn f => .rafFn f
  | .hostFn h => .rafHostF h
  | _ => .invalid

/-- wrapFn inside `_callPromiseMethod` for `then` (has a NativeFunction
branch). -/
def wrapFnThen : Value → Option PCb
  | .fn f => some (.user f)
  | .native nf => some (.nativeCb nf)
  | .hostFn h => some (.hostCb h)
  | _ => none

/-- wrapFn inside `_callPromiseMethod` for `catch` (no NativeFunction
branch). -/
def wrapFnCatch : Value → Option PCb
  | .fn f => some (.user f)
  | .hostFn h => some (.hostCb h)
  | _ => none

/-- `console.*` emission: stringify all arguments, keep the raw values. -/
def consoleEmit (s : EngineState) (t : StepType) (args : List Value) :
    EngineState :=
  emit s t { args := some (args.map (stringify s)), raw := some args }

/-- `clearTimeout` / `clearInterval` builtin body: pass the argument to
`engine.clearTimer`; strict equality against the numeric timer ids means
non-numeric arguments match nothing.  (Timer ids start at 1.) -/
def clearTimerArg (s : EngineState) (v : Value) : EngineState :=
  match v with
  | .num n => clearTimer s n.toNat
  | _ => s

/-- `Number(delay) || 0` followed by `Math.max(0, ·)`. -/
def delayMs (delay : Value) : Int :=
  let n : Int := match toNumber delay with
    | .num n => if n ≠ 0 then n else 0
    | _ => 0          -- NaN is falsy; Infinity delays are outside the subset
  max 0 n

/-- second parameter with default 0 (JS default kicks in on `undefined`). -/
def delayArg (args : List Value) : Value :=
  match args.get? 1 with
  | none => .num 0
  | some .undef => .num 0
  | some v => v

/-- hoisting pass of `evalProgram`: run `evalFunctionDeclaration` for every
function declaration in the body. -/
def hoistFnDecls (env : Nat) : List Node → EngineState → EngineState
  | [], s => s
  | stmt :: rest, s =>
      match stmt with
      | .funcDecl name params body isAsync line =>
          hoistFnDecls env rest
            (envDefine s env name
              (.fn ⟨name, params, body, env, isAsync, false, line⟩) .kvar)
      | _ => hoistFnDecls env rest s

/-- bind parameters (missing arguments become undefined, extras dropped). -/
def bindParams : EngineState → Nat → List String → List Value → EngineState
  | s, _, [], _ => s
  | s, env, p :: ps, args =>
      let v := match args with | [] => Value.undef | a :: _ => a
      bindParams (envDefine s env p v .klet) env ps (args.drop 1)

/-! ## The interpreter, promise state machine, and task execution

All functions below mirror `interpreter.ts`, the `SimPromise` methods of
`types.ts`, and the engine call protocol of `eventLoop.ts`.  The mutual
recursion (the interpreter is re-entered from scheduler callbacks and
promise reactions) is defunctionalized into a single step function over a
request type, iterated with `Nat.rec` on a fuel bound on the host call
depth; fuel never runs out on the concrete programs below, and the
invariant theorems hold for every fuel. -/

/-- one pending engine call (the defunctionalized mutual recursion). -/
inductive Req where
  | evaluate (node : Node) (env : Nat) (actx : Option Nat)
  | evalBlock (stmts : List Node) (env : Nat) (actx : Option Nat)
      (skip : Bool) (last : Res)
  | evalTry (block : List Node) (hparam : Option String)
      (hbody : Option (List Node)) (fin : Option (List Node))
      (env : Nat) (actx : Option Nat)
  | evalArgs (args : List Node) (env : Nat) (actx : Option Nat)
  | evalCall (callee : Node) (args : List Node) (line : Int)
      (env : Nat) (actx : Option Nat)
  | callDispatch (calleeV : Value) (thisVal : Option Value)
      (argNodes : List Node) (line : Int) (cname : String)
      (env : Nat) (actx : Option Nat)
  | callPromiseMethod (pid : Nat) (method : String)
      (argNodes : List Node) (env : Nat) (actx : Option Nat)
  | evalExprStmtAwait (arg : Node) (env : Nat) (asyncP : Nat)
      (remaining : List Node)
  | evalReturnAwait (arg : Node) (env : Nat) (asyncP : Nat)
  | toSimPromiseReq (v : Value)
  | callUserFunction (f : RuntimeFn) (args : List Value)
      (thisVal : Option Value)
  | callAsyncFunction (f : RuntimeFn) (funcEnv : Nat) (fnName : String)
      (line : Int)
  | callNative (nf : NativeFn) (args : List Value)
  | promiseResolve (pid : Nat) (v : Value)
  | promiseReject (pid : Nat) (v : Value)
  | promiseThen (pid : Nat) (onF : Option PCb) (onR : Option PCb)
  | promiseFlush (pid : Nat)
  | runCallback (cb : Callback)
  | runPCb (pcb : PCb) (val : Value)

/-- result channel of one engine call. -/
inductive Out where
  | res (r : Res)
  | argsOut (r : Except ThrownVal (List Value))
  | pidOut (p : Nat)
  | unitOut

def asRes : Out × EngineState → Res × EngineState
  | (.res r, s) => (r, s)
  | (_, s) => (.thrown (.hostError "out of fuel"), s)

def asArgs : Out × EngineState → Except ThrownVal (List Value) × EngineState
  | (.argsOut r, s) => (r, s)
  | (_, s) => (.error (.hostError "out of fuel"), s)

def asPid : Out × EngineState → Nat × EngineState
  | (.pidOut p, s) => (p, s)
  | (_, s) => (0, s)

def asState : Out × EngineState → EngineState
  | (_, s) => s

def oRes (p : Res × EngineState) : Out × EngineState := (.res p.1, p.2)
def oArgs (p : Except ThrownVal (List Value) × EngineState) :
    Out × EngineState := (.argsOut p.1, p.2)
def oPid (p : Nat × EngineState) : Out × EngineState := (.pidOut p.1, p.2)
def oUnit (s : EngineState) : Out × EngineState := (.unitOut, s)

/-- out-of-fuel behaviour: interpreter calls abort with a host error,
promise-heap operations leave the state unchanged. -/
def stepZero : Req → EngineState → Out × EngineState := fun req s =>
  match req with
  | .evalArgs .. => (.argsOut (.error (.hostError "out of fuel")), s)
  | .toSimPromiseReq .. => (.pidOut 0, s)
  | .promiseThen .. => (.pidOut 0, s)
  | .promiseResolve .. => (.unitOut, s)
  | .promiseReject .. => (.unitOut, s)
  | .promiseFlush .. => (.unitOut, s)
  | _ => (.res (.thrown (.hostError "out of fuel")), s)

/-- the body of every engine call, with `rec` standing for the engine at
one less fuel.  Each branch is the direct translation of the
corresponding source function (named in the comments). -/
def execF (rec : Req → EngineState → Out × EngineState) :
    Req → EngineState → Out × EngineState := fun req s₀ =>
  -- local views of the recursive entry points
  let evaluateGo := fun node env actx s =>
    asRes (rec (.evaluate node env actx) s)
  let evalBlockGo := fun stmts env actx skip last s =>
    asRes (rec (.evalBlock stmts env actx skip last) s)
  let evalTryGo := fun block hparam hbody fin env actx s =>
    asRes (rec (.evalTry block hparam hbody fin env actx) s)
  let evalArgsGo := fun args env actx s =>
    asArgs (rec (.evalArgs args env actx) s)
  let evalCallGo := fun callee args line env actx s =>
    asRes (rec (.evalCall callee args line env actx) s)
  let callDispatchGo := fun calleeV thisVal argNodes line cname env actx s =>
    asRes (rec (.callDispatch calleeV thisVal argNodes line cname env actx) s)
  let callPromiseMethodGo := fun pid method argNodes env actx s =>
    asRes (rec (.callPromiseMethod pid method argNodes env actx) s)
  let evalExprStmtAwaitGo := fun arg env asyncP remaining s =>
    asRes (rec (.evalExprStmtAwait arg env asyncP remaining) s)
  let evalReturnAwaitGo := fun arg env asyncP s =>
    asRes (rec (.evalReturnAwait arg env asyncP) s)
  let toSimPromiseGo := fun v s => asPid (rec (.toSimPromiseReq v) s)
  let callUserFunctionGo := fun f args thisVal s =>
    asRes (rec (.callUserFunction f args thisVal) s)
  let callAsyncFunctionGo := fun f funcEnv fnName line s =>
    asRes (rec (.callAsyncFunction f funcEnv fnName line) s)
  let callNativeGo := fun nf args s => asRes (rec (.callNative nf args) s)
  let promiseResolveGo := fun pid v s =>
    asState (rec (.promiseResolve pid v) s)
  let promiseRejectGo := fun pid v s =>
    asState (rec (.promiseReject pid v) s)
  let promiseThenGo := fun pid onF onR s =>
    asPid (rec (.promiseThen pid onF onR) s)
  let promiseFlushGo := fun pid s => asState (rec (.promiseFlush pid) s)
  let runPCbGo := fun pcb val s => asRes (rec (.runPCb pcb val) s)
  match req, s₀ with
  -- `Interpreter.evaluate`: single dispatch on the node kind
  | .evaluate node env actx, s =>
    oRes <|
    match node with
    | .lit v => (.val (litToValue v), s)
    | .ident name =>
        -- evalIdentifier
        (match name with
        | "undefined" => (.val .undef, s)
        | "NaN" => (.val .nan, s)
        | "Infinity" => (.val .inf, s)
        | _ =>
          match envGet s (s.envs.length + 1) env name with
          | some v => (.val v, s)
          | none =>
              (.thrown (.hostError s!"ReferenceError: {name} is not defined"),
               s))
    | .member objNode prop =>
        -- evalMember
        bindV (evaluateGo objNode env actx s) fun obj s =>
          match obj with
          | .undef | .nullV =>
              (.thrown (.hostError
                s!"TypeError: Cannot read properties of {jsHostString obj} (reading {prop})"),
               s)
          | .str str =>
              if prop = "length" then (.val (.num str.length), s)
              else (.val (getProp obj prop), s)
          | .arr elems =>
              if prop = "length" then (.val (.num elems.length), s)
              else (.val (getProp obj prop), s)
          | _ => (.val (getProp obj prop), s)
    | .call callee args line => evalCallGo callee args line env actx s
    | .arrow params body isAsync line =>
        -- evalArrowExpr
        (.val (.fn ⟨"<arrow>", params, body, env, isAsync, true, line⟩), s)
    | .awaitE arg =>
        -- evalAwait: the inline fallback for awaits outside the three
        -- block-level suspension positions
        (match actx with
        | none =>
            (.thrown (.hostError
              "SyntaxError: await is only valid in async functions"), s)
        | some _ =>
          bindV (evaluateGo arg env actx s) fun value s =>
            match value with
            | .promise p =>
                (match getPromise s p with
                | some d =>
                    (match d.state with
                    | .fulfilled => (.val d.value, s)
                    | .rejected => (.thrown (.userVal d.value), s)
                    | .pending => (.val d.value, s)) -- simplified fallback
                | none => (.val .undef, s))
            | v => (.val v, s))
    | .exprStmt e _ => evaluateGo e env actx s
    | .funcDecl name params body isAsync line =>
        -- evalFunctionDeclaration (defines with kind `var`)
        (.val .undef,
         envDefine s env name
           (.fn ⟨name, params, body, env, isAsync, false, line⟩) .kvar)
    | .returnStmt arg _ =>
        -- evalReturn
        (match arg with
        | none => (.ret .undef, s)
        | some a => bindV (evaluateGo a env actx s) fun v s => (.ret v, s))
    | .throwStmt a _ =>
        bindV (evaluateGo a env actx s) fun v s =>
          (.thrown (.userVal v), s)
    | .tryStmt block hp hb fin _ => evalTryGo block hp hb fin env actx s
    | .blockStmt body _ =>
        let (child, s) := createChildEnv s env false
        evalBlockGo body child actx false (.val .undef) s
  -- `Interpreter.evalBlock` (`last` is the source's local `result`)
  | .evalBlock stmts env actx skip last, s =>
    oRes <|
    match stmts with
    | [] => (last, s)
    | stmt :: rest =>
      if skip && stmt.isFnDecl then
        evalBlockGo rest env actx skip last s
      else
        let s := emit s .HIGHLIGHT_LINE {} (some stmt.line)
        match actx, stmt with
        | some ap, .exprStmt (.awaitE arg) _ =>
            -- `await expr;` as an expression statement
            (match evalExprStmtAwaitGo arg env ap rest s with
            | (.susp, s) => (Res.susp, s)
            | (.thrown e, s) => (.thrown e, s)
            | (r, s) => evalBlockGo rest env actx skip r s)
        | some ap, .returnStmt (some (.awaitE arg)) _ =>
            -- `return await expr;`
            (match evalReturnAwaitGo arg env ap s with
            | (.susp, s) => (Res.susp, s)
            | (r, s) => (r, s))
        | _, _ =>
            (match evaluateGo stmt env actx s with
            | (.val v, s) => evalBlockGo rest env actx skip (.val v) s
            | (r, s) => (r, s))  -- Return/Break/Continue/SUSPENDED/throw
  -- `Interpreter.evalTry`: with no catch clause the host `catch` swallows
  -- the exception and the statement completes with undefined
  | .evalTry block hparam hbody fin env actx, s =>
    oRes <|
    let (tryEnv, s) := createChildEnv s env false
    let (r, s) := evalBlockGo block tryEnv actx false (.val .undef) s
    let (r2, s) :=
      match r with
      | .thrown e =>
          (match hbody with
          | some hb =>
              let (catchEnv, s) := createChildEnv s env false
              let s := match hparam with
                | some pn => envDefine s catchEnv pn e.toValue .klet
                | none => s
              evalBlockGo hb catchEnv actx false (.val .undef) s
          | none => (Res.val .undef, s))  -- no handler: swallowed
      | _ => (r, s)
    (match fin with
    | none => (r2, s)
    | some fb =>
        let (finEnv, s) := createChildEnv s env false
        let (rf, s) := evalBlockGo fb finEnv actx false (.val .undef) s
        match rf with
        | .thrown e => (.thrown e, s)  -- a finalizer throw supersedes
        | _ => (r2, s))
  -- argument evaluation (no SpreadElement in the subset, so the
  -- spread-flattening loop degenerates to the identity)
  | .evalArgs args env actx, s =>
    oArgs <|
    match args with
    | [] => (.ok [], s)
    | a :: rest =>
        match evaluateGo a env actx s with
        | (.val v, s) =>
            (match evalArgsGo rest env actx s with
            | (.ok vs, s) => (.ok (v :: vs), s)
            | err => err)
        | (.thrown e, s) => (.error e, s)
        | (_, s) =>
            -- a sentinel in argument position (unreachable in the subset)
            (match evalArgsGo rest env actx s with
            | (.ok vs, s) => (.ok (Value.undef :: vs), s)
            | err => err)
  -- `Interpreter.evalCall` up to argument evaluation: callee resolution,
  -- promise-method dispatch, host-function fast path, missing-method error
  | .evalCall calleeNode argNodes line env actx, s =>
    oRes <|
    match calleeNode with
    | .member objNode propName =>
        bindV (evaluateGo objNode env actx s) fun thisVal s =>
          match thisVal with
          | .promise p =>
              callPromiseMethodGo p propName argNodes env actx s
          | _ =>
            match getProp thisVal propName with
            | .hostFn h =>
                -- `typeof callee === 'function'` and not a wrapper class
                (match evalArgsGo argNodes env actx s with
                 | (.error e, s) => (.thrown e, s)
                 | (.ok argsV, s) =>
                     let (v, s) := hostApply s h thisVal argsV
                     (.val v, s))
            | .fn f =>
                callDispatchGo (.fn f) (some thisVal) argNodes line
                  (calleeName calleeNode) env actx s
            | .native nf =>
                callDispatchGo (.native nf) (some thisVal) argNodes line
                  (calleeName calleeNode) env actx s
            | .undef =>
                -- method not found; the `thisVal[prop]` native retry also
                -- fails in the modelled subset (no array/string methods)
                (.thrown (.hostError
                  s!"TypeError: {propName} is not a function"), s)
            | .nullV =>
                (.thrown (.hostError
                  s!"TypeError: {propName} is not a function"), s)
            | other =>
                callDispatchGo other (some thisVal) argNodes line
                  (calleeName calleeNode) env actx s
    | _ =>
        bindV (evaluateGo calleeNode env actx s) fun calleeV s =>
          callDispatchGo calleeV none argNodes line
            (calleeName calleeNode) env actx s
  -- tail of `evalCall`: evaluate the arguments, then dispatch.  NOTE the
  -- native branch mirrors the source's missing try/finally: a throwing
  -- native leaves its frame on the stack
  | .callDispatch calleeV thisVal argNodes line cname env actx, s =>
    oRes <|
    match evalArgsGo argNodes env actx s with
    | (.error e, s) => (.thrown e, s)
    | (.ok flatArgs, s) =>
      match calleeV with
      | .native nf =>
          let s := pushStack s nf.name line
          let s := emit s .HIGHLIGHT_LINE {} (some line)
          (match callNativeGo nf flatArgs s with
           | (.thrown e, s) => (.thrown e, s)   -- frame NOT popped
           | (r, s) => (r, popStack s))
      | .fn f => callUserFunctionGo f flatArgs thisVal s
      | .hostFn h =>
          let (v, s) := hostApply s h (thisVal.getD .undef) flatArgs
          (.val v, s)
      | _ =>
          (.thrown (.hostError s!"TypeError: {cname} is not a function"), s)
  -- `Interpreter._callPromiseMethod`
  | .callPromiseMethod pid method argNodes env actx, s =>
    oRes <|
    match evalArgsGo argNodes env actx s with
    | (.error e, s) => (.thrown e, s)
    | (.ok argsV, s) =>
      if method = "then" then
        let onF := wrapFnThen (argsV.getD 0 .undef)
        let onR := wrapFnThen (argsV.getD 1 .undef)
        let s := emit s .SCHEDULE_MICROTASK { label := some ".then()" }
        let (child, s) := promiseThenGo pid onF onR s
        (.val (.promise child), s)
      else if method = "catch" then
        let onR := wrapFnCatch (argsV.getD 0 .undef)
        let (child, s) := promiseThenGo pid none onR s
        (.val (.promise child), s)
      else if method = "finally" then
        match argsV.getD 0 .undef with
        | .fn f =>
            let (child, s) := promiseThenGo pid
              (some (.finallyCb (some f) false))
              (some (.finallyCb (some f) true)) s
            (.val (.promise child), s)
        | _ =>
            let (child, s) := promiseThenGo pid
              (some (.finallyCb none false))
              (some (.finallyCb none true)) s
            (.val (.promise child), s)
      else (.val .undef, s)
  -- `Interpreter._evalExprStmtAwait` (`await expr;` statement: fulfilled
  -- continues inline, rejected throws, pending captures the remaining
  -- statements and suspends)
  | .evalExprStmtAwait arg env asyncP remaining, s =>
    oRes <|
    bindV (evaluateGo arg env (some asyncP) s) fun value s =>
      let (p, s) := toSimPromiseGo value s
      match getPromise s p with
      | none => (.val .undef, s)
      | some d =>
        match d.state with
        | .fulfilled => (.val d.value, s)
        | .rejected => (.thrown (.userVal d.value), s)
        | .pending =>
            let s := emit s .SCHEDULE_MICROTASK { label := some "await" }
            let (_, s) := promiseThenGo p
                (some (.awaitContExpr remaining env asyncP))
                (some (.rejectTarget asyncP)) s
            (.susp, s)
  -- `Interpreter._evalReturnAwait` (`return await expr;`)
  | .evalReturnAwait arg env asyncP, s =>
    oRes <|
    bindV (evaluateGo arg env (some asyncP) s) fun value s =>
      let (p, s) := toSimPromiseGo value s
      match getPromise s p with
      | none => (.val .undef, s)
      | some d =>
        match d.state with
        | .fulfilled => (.ret d.value, s)
        | .rejected => (.thrown (.userVal d.value), s)
        | .pending =>
            let s := emit s .SCHEDULE_MICROTASK
              { label := some "return await" }
            let (_, s) := promiseThenGo p
                (some (.resolveTarget asyncP))
                (some (.rejectTarget asyncP)) s
            (.susp, s)
  -- `Interpreter._toSimPromise`
  | .toSimPromiseReq v, s =>
    oPid <|
    (match v with
    | .promise p => (p, s)
    | _ =>
        let (p, s) := createPromise s
        (p, promiseResolveGo p v s))
  -- `engine.callUserFunction`
  | .callUserFunction f args thisVal, s =>
    oRes <|
    let (funcEnv, s) := createChildEnv s f.closure true
    let s := match thisVal with
      | some tv =>
          if !f.isArrow then envDefine s funcEnv "this" tv .kconst else s
      | none => s
    let s := bindParams s funcEnv f.params args
    let s := envDefine s funcEnv "arguments" (.arr args) .kconst
    let fnName := if f.name = "" then "<anonymous>" else f.name
    let line := f.line
    if f.isAsync then callAsyncFunctionGo f funcEnv fnName line s
    else
      let s := pushStack s fnName line
      let s := emit s .HIGHLIGHT_LINE {} (some line)
      let r := match f.body with
        | .blockStmt body _ =>
            evalBlockGo body funcEnv none false (.val .undef) s
        | bodyExpr =>
            -- arrow with expression body: wrap as ReturnSignal
            match evaluateGo bodyExpr funcEnv none s with
            | (.val v, s) => (Res.ret v, s)
            | other => other
      match r with
      | (.thrown e, s) => (.thrown e, popStack s)  -- pop, then rethrow
      | (rr, s) =>
          let s := popStack s
          match rr with
          | .ret v => (.val v, s)
          | other => (other, s)
  -- `engine._callAsyncFunction`
  | .callAsyncFunction f funcEnv fnName line, s =>
    oRes <|
    let (asyncP, s) := createPromise s
    let s := pushStack s fnName line
    let s := emit s .HIGHLIGHT_LINE {} (some line)
    let r := match f.body with
      | .blockStmt body _ =>
          evalBlockGo body funcEnv (some asyncP) false (.val .undef) s
      | bodyExpr =>
          match evaluateGo bodyExpr funcEnv (some asyncP) s with
          | (.val v, s) => (Res.ret v, s)  -- wrapped unless SUSPENDED
          | other => other
    (match r with
    | (.thrown e, s) =>
        let s := popStack s
        let s := promiseRejectGo asyncP e.toValue s
        (.val (.promise asyncP), s)
    | (rr, s) =>
        let s := popStack s
        let s := match rr with
          | .susp => s  -- the stored continuation settles the promise
          | .ret v => promiseResolveGo asyncP v s
          | .val v => promiseResolveGo asyncP v s
          | _ => promiseResolveGo asyncP .undef s
        (.val (.promise asyncP), s))
  -- the bodies of the defunctionalized `NativeFunction`s (builtins.ts)
  | .callNative nf args, s =>
    oRes <|
    match nf with
    | .consoleLog => (.val .undef, consoleEmit s .CONSOLE_LOG args)
    | .consoleWarn => (.val .undef, consoleEmit s .CONSOLE_WARN args)
    | .consoleError => (.val .undef, consoleEmit s .CONSOLE_ERROR args)
    | .setTimeoutN =>
        let callback := args.headD .undef
        let ms := delayMs (delayArg args)
        let label := s!"setTimeout({ms}ms)"
        let cb := Callback.wrapped (wrapCallbackN callback)
        let (id, s) := registerTimer s label ms cb .timeout
        let s := emit s .REGISTER_WEB_API
          { idNum := some id, label := some label, delay := some ms }
        (.val (.num id), s)
    | .setIntervalN =>
        let callback := args.headD .undef
        let ms := delayMs (delayArg args)
        let label := s!"setInterval({ms}ms)"
        let cb := Callback.wrapped (wrapCallbackN callback)
        let (id, s) := registerTimer s label ms cb .interval
        let s := emit s .REGISTER_WEB_API
          { idNum := some id, label := some label, delay := some ms }
        (.val (.num id), s)
    | .clearTimeoutN => (.val .undef, clearTimerArg s (args.headD .undef))
    | .clearIntervalN => (.val .undef, clearTimerArg s (args.headD .undef))
    | .promiseCtor =>
        let executor := args.headD .undef
        let (pid, s) := createPromise s
        let resolveV := Value.native (.resolveFn pid)
        let rejectV := Value.native (.rejectFn pid)
        -- the executor runs synchronously
        let r := match executor with
          | .fn f => callUserFunctionGo f [resolveV, rejectV] none s
          | .native nf2 => callNativeGo nf2 [resolveV, rejectV] s
          | .hostFn h =>
              let (v, s) := hostApply s h .undef [resolveV, rejectV]
              (Res.val v, s)
          | _ => (Res.val .undef, s)
        (match r with
         | (.thrown e, s) => (.thrown e, s)
         | (_, s) => (.val (.promise pid), s))
    | .promiseResolveN =>
        (match args.headD .undef with
         | .promise p => (.val (.promise p), s)
         | v =>
             let (p, s) := createPromise s
             (.val (.promise p), promiseResolveGo p v s))
    | .promiseRejectN =>
        let (p, s) := createPromise s
        (.val (.promise p), promiseRejectGo p (args.headD .undef) s)
    | .queueMicrotaskN =>
        let cb := Callback.wrapped (wrapCallbackN (args.headD .undef))
        let s := scheduleMicrotask s "queueMicrotask" cb "queueMicrotask"
        let s := emit s .SCHEDULE_MICROTASK { label := some "queueMicrotask" }
        (.val .undef, s)
    | .processNextTickN =>
        let cb := Callback.wrapped (wrapCallbackNT (args.headD .undef))
        -- front-inserted by scheduleMicrotask (source = 'process.nextTick')
        let s := scheduleMicrotask s "process.nextTick" cb "process.nextTick"
        let s := emit s .SCHEDULE_MICROTASK
          { label := some "process.nextTick" }
        (.val .undef, s)
    | .setImmediateN =>
        let cb := Callback.wrapped (wrapCallbackNT (args.headD .undef))
        (.val .undef, scheduleCheck s "setImmediate" cb "setImmediate")
    | .requestAnimationFrameN =>
        -- scheduleMacrotask emits with the task id; the builtin then emits
        -- a SECOND SCHEDULE_MACROTASK carrying only the label (no id)
        let cb := Callback.wrapped (wrapCallbackRAF (args.headD .undef))
        let s := scheduleMacrotask s "requestAnimationFrame" cb "rAF"
        let s := emit s .SCHEDULE_MACROTASK
          { label := some "requestAnimationFrame" }
        (.val .undef, s)
    | .resolveFn p =>
        (.val .undef, promiseResolveGo p (args.headD .undef) s)
    | .rejectFn p =>
        (.val .undef, promiseRejectGo p (args.headD .undef) s)
  -- `SimPromise.resolve`: no-op once settled; adopt when resolving with a
  -- promise; otherwise fulfill and flush
  | .promiseResolve pid v, s =>
    oUnit <|
    match getPromise s pid with
    | none => s
    | some d =>
      if d.state ≠ .pending then s
      else
        match v with
        | .promise q =>
            (match getPromise s q with
             | none => s
             | some qd =>
                 match qd.state with
                 | .fulfilled => promiseResolveGo pid qd.value s
                 | .rejected => promiseRejectGo pid qd.value s
                 | .pending =>
                     (promiseThenGo q (some (.resolveTarget pid))
                       (some (.rejectTarget pid)) s).2)
        | _ =>
            let s := setPromise s pid
              { d with state := .fulfilled, value := v }
            promiseFlushGo pid s
  -- `SimPromise.reject`
  | .promiseReject pid v, s =>
    oUnit <|
    match getPromise s pid with
    | none => s
    | some d =>
      if d.state ≠ .pending then s
      else
        let s := setPromise s pid { d with state := .rejected, value := v }
        promiseFlushGo pid s
  -- `SimPromise.then`: always create a child promise, append the handler,
  -- flush when already settled
  | .promiseThen pid onF onR, s =>
    oPid <|
    let (child, s) := createPromise s
    match getPromise s pid with
    | none => (child, s)
    | some d =>
        let s := setPromise s pid
          { d with handlers := d.handlers ++ [⟨onF, onR, child⟩] }
        if d.state ≠ .pending then (child, promiseFlushGo pid s)
        else (child, s)
  -- `SimPromise._flush`: shift each handler and schedule one microtask per
  -- handler (never invoking user code synchronously)
  | .promiseFlush pid, s =>
    oUnit <|
    match getPromise s pid with
    | none => s
    | some d =>
      match d.handlers with
      | [] => s
      | h :: rest =>
          let s := setPromise s pid { d with handlers := rest }
          let isF := d.state = .fulfilled
          let s := scheduleMicrotask s
            (if isF then "Promise.then" else "Promise.catch")
            (.promiseReaction (if isF then h.onFulfilled else h.onRejected)
              h.childPromise isF d.value)
            "Promise"
          promiseFlushGo pid s
  -- run one defunctionalized queued-task callback
  | .runCallback cb, s =>
    oRes <|
    match cb with
    | .wrapped w =>
        (match w with
         | .userFn f =>
             (match callUserFunctionGo f [] none s with
              | (.thrown e, s) => (.thrown e, s)
              | (_, s) => (.val .undef, s))
         | .nativeFn nf =>
             (match callNativeGo nf [] s with
              | (.thrown e, s) => (.thrown e, s)
              | (_, s) => (.val .undef, s))
         | .hostF h =>
             let (_, s) := hostApply s h .undef []
             (.val .undef, s)
         | .rafFn f =>
             (match callUserFunctionGo f [.num s.currentTime] none s with
              | (.thrown e, s) => (.thrown e, s)
              | (_, s) => (.val .undef, s))
         | .rafHostF h =>
             let (_, s) := hostApply s h .undef [.num s.currentTime]
             (.val .undef, s)
         | .invalid => (.val .undef, s))
    | .promiseReaction cbOpt child isF val =>
        -- the try-block inside the microtask scheduled by `_flush`
        match cbOpt with
        | some pcb =>
            (match runPCbGo pcb val s with
             | (.thrown e, s) =>
                 (.val .undef, promiseRejectGo child e.toValue s)
             | (.val rv, s) =>
                 (match rv with
                  | .promise rp =>
                      let (_, s) := promiseThenGo rp
                        (some (.resolveTarget child))
                        (some (.rejectTarget child)) s
                      (.val .undef, s)
                  | _ => (.val .undef, promiseResolveGo child rv s))
             | (_, s) =>
                 (.val .undef, promiseResolveGo child .undef s))
        | none =>
            if isF then (.val .undef, promiseResolveGo child val s)
            else (.val .undef, promiseRejectGo child val s)
  -- run one defunctionalized promise-handler callback
  | .runPCb pcb val, s =>
    oRes <|
    match pcb with
    | .user f => callUserFunctionGo f [val] none s
    | .nativeCb nf => callNativeGo nf [val] s
    | .hostCb h =>
        let (v, s) := hostApply s h .undef [val]
        (.val v, s)
    | .resolveTarget p => (.val .undef, promiseResolveGo p val s)
    | .rejectTarget p => (.val .undef, promiseRejectGo p val s)
    | .finallyCb f rethrow =>
        let r := match f with
          | some rf => callUserFunctionGo rf [] none s
          | none => (Res.val .undef, s)
        (match r with
         | (.thrown e, s) => (.thrown e, s)
         | (_, s) =>
             if rethrow then (.thrown (.userVal val), s)
             else (.val val, s))
    | .awaitContExpr remaining env asyncP =>
        -- the `resolved` continuation attached by `_evalExprStmtAwait`
        match evalBlockGo remaining env (some asyncP) false
            (.val .undef) s with
        | (.thrown e, s) => (.thrown e, s)
        | (.ret v, s) => (.val .undef, promiseResolveGo asyncP v s)
        | (.susp, s) => (.val .undef, s)
        | (.val v, s) => (.val .undef, promiseResolveGo asyncP v s)
        | (_, s) => (.val .undef, promiseResolveGo asyncP .undef s)

/-- the engine at a given fuel: `Nat.rec` iteration of `execF` (kept as a
bare recursor application so the kernel unfolds one level per call). -/
def step (fuel : Nat) : Req → EngineState → Out × EngineState :=
  Nat.rec stepZero (fun _ ih => execF ih) fuel

theorem step_zero : step 0 = stepZero := rfl

theorem step_succ (fuel : Nat) : step (fuel + 1) = execF (step fuel) := rfl

/-! source-named entry points (wrappers over `step`). -/

def evaluate (fuel : Nat) (node : Node) (env : Nat) (actx : Option Nat)
    (s : EngineState) : Res × EngineState :=
  asRes (step fuel (.evaluate node env actx) s)

def evalBlock (fuel : Nat) (stmts : List Node) (env : Nat)
    (actx : Option Nat) (skip : Bool) (last : Res) (s : EngineState) :
    Res × EngineState :=
  asRes (step fuel (.evalBlock stmts env actx skip last) s)

def evalTry (fuel : Nat) (block : List Node) (hparam : Option String)
    (hbody : Option (List Node)) (fin : Option (List Node)) (env : Nat)
    (actx : Option Nat) (s : EngineState) : Res × EngineState :=
  asRes (step fuel (.evalTry block hparam hbody fin env actx) s)

def evalCall (fuel : Nat) (callee : Node) (args : List Node) (line : Int)
    (env : Nat) (actx : Option Nat) (s : EngineState) : Res × EngineState :=
  asRes (step fuel (.evalCall callee args line env actx) s)

def callUserFunction (fuel : Nat) (f : RuntimeFn) (args : List Value)
    (thisVal : Option Value) (s : EngineState) : Res × EngineState :=
  asRes (step fuel (.callUserFunction f args thisVal) s)

def callNative (fuel : Nat) (nf : NativeFn) (args : List Value)
    (s : EngineState) : Res × EngineState :=
  asRes (step fuel (.callNative nf args) s)

def promiseResolve (fuel : Nat) (pid : Nat) (v : Value) (s : EngineState) :
    EngineState :=
  asState (step fuel (.promiseResolve pid v) s)

def promiseReject (fuel : Nat) (pid : Nat) (v : Value) (s : EngineState) :
    EngineState :=
  asState (step fuel (.promiseReject pid v) s)

def promiseThen (fuel : Nat) (pid : Nat) (onF onR : Option PCb)
    (s : EngineState) : Nat × EngineState :=
  asPid (step fuel (.promiseThen pid onF onR) s)

def promiseFlush (fuel : Nat) (pid : Nat) (s : EngineState) : EngineState :=
  asState (step fuel (.promiseFlush pid) s)

def runCallback (fuel : Nat) (cb : Callback) (s : EngineState) :
    Res × EngineState :=
  asRes (step fuel (.runCallback cb) s)

/-! ## Global environment (builtins.ts `createGlobalEnv`)

The global scope is allocated as environment 0 (a function scope) and
populated with the built-ins the claim programs exercise; built-ins not
exercised by any claim are omitted (see the header comment). -/

def createGlobalEnvS (s : EngineState) (mode : RuntimeMode) :
    Nat × EngineState :=
  let (env, s) := (s.envs.length,
    { s with envs := s.envs ++ [⟨[], none, true⟩] })
  let consoleObj : Value := .object
    [("log", .native .consoleLog), ("warn", .native .consoleWarn),
     ("error", .native .consoleError)]
  let s := envDefine s env "console" consoleObj .kconst
  let s := envDefine s env "setTimeout" (.native .setTimeoutN) .kconst
  let s := envDefine s env "setInterval" (.native .setIntervalN) .kconst
  let s := envDefine s env "clearTimeout" (.native .clearTimeoutN) .kconst
  let s := envDefine s env "clearInterval" (.native .clearIntervalN) .kconst
  let s := envDefine s env "Promise" (.native .promiseCtor) .kconst
  let s := envDefine s env "queueMicrotask" (.native .queueMicrotaskN) .kconst
  let s :=
    if mode = .browser then
      envDefine s env "requestAnimationFrame"
        (.native .requestAnimationFrameN) .kconst
    else s
  let s :=
    if mode = .node then
      let processObj : Value := .object
        [("nextTick", .native .processNextTickN)]
      let s := envDefine s env "process" processObj .kconst
      envDefine s env "setImmediate" (.native .setImmediateN) .kconst
    else s
  let s := envDefine s env "undefined" .undef .kconst
  let s := envDefine s env "null" .nullV .kconst
  let s := envDefine s env "NaN" .nan .kconst
  let s := envDefine s env "Infinity" .inf .kconst
  let s := envDefine s env "true" (.bool true) .kconst
  let s := envDefine s env "false" (.bool false) .kconst
  -- Math holds raw host functions (no NativeFunction wrappers)
  let mathObj : Value := .object
    [("floor", .hostFn .mathFloor), ("abs", .hostFn .mathAbs),
     ("random", .hostFn .mathRandom), ("PI", .num 3)]
  let s := envDefine s env "Math" mathObj .kconst
  (env, s)

/-! ## Scheduler and event loop (eventLoop.ts) -/

/-- `engine._executeMacrotask` -/
def executeMacrotask (fuel : Nat) (task : QueuedTask) (s : EngineState) :
    EngineState :=
  let s := emit s .DEQUEUE_MACROTASK
    { idStr := some task.id, label := some task.label }
  let s := emit s .EXECUTE_MACROTASK
    { idStr := some task.id, label := some task.label }
  let s := pushStack s task.label 0
  let s := match runCallback fuel task.callback s with
    | (.thrown e, s) => handleError s e
    | (_, s) => s
  popStack s

/-- `engine._drainMicrotasks`: pop-and-run until the queue empties or the
per-drain guard (200) is exhausted; `allowance` counts the remaining guard
budget (`200 - microGuard`). -/
def drainMicrotasks (fuel : Nat) : Nat → EngineState → EngineState :=
  Nat.rec (motive := fun _ => EngineState → EngineState)
    (fun s => s)
    (fun _ ih s =>
      match s.microtaskQueue with
      | [] => s
      | task :: rest =>
          let s := { s with microtaskQueue := rest }
          let s := emit s .EVENT_LOOP_CHECK { phase := some "microtask" }
          let s := emit s .DEQUEUE_MICROTASK
            { idStr := some task.id, label := some task.label }
          let s := emit s .EXECUTE_MICROTASK
            { idStr := some task.id, label := some task.label }
          let s := pushStack s task.label 0
          let s := match runCallback fuel task.callback s with
            | (.thrown e, s) => handleError s e
            | (_, s) => s
          let s := popStack s
          ih s)

/-- one pass of the `_advanceTimers` dispatch loop over the timer entries:
resolve every uncleared timer whose expiry has arrived, enqueueing its
callback as a macrotask; intervals reschedule, timeouts become cleared. -/
def advanceTimersGo (s : EngineState) :
    List WebAPIEntry → List WebAPIEntry × EngineState
  | [] => ([], s)
  | w :: ws =>
      if !w.cleared && w.startTime + w.delay ≤ s.currentTime then
        let s := emit s .RESOLVE_WEB_API
          { idNum := some w.id, label := some w.label }
        let tid := s.taskId + 1
        let task : QueuedTask :=
          ⟨s!"macro-{tid}", w.label, w.callback, w.type.sourceTag⟩
        let s := { s with taskId := tid,
                          macrotaskQueue := s.macrotaskQueue ++ [task] }
        let s := emit s .SCHEDULE_MACROTASK
          { idStr := some task.id, label := some w.label }
        let w' := if w.type = .interval
          then { w with startTime := s.currentTime }
          else { w with cleared := true }
        let (ws', s) := advanceTimersGo s ws
        (w' :: ws', s)
      else
        let (ws', s) := advanceTimersGo s ws
        (w :: ws', s)

/-- minimum expiry over the pending (uncleared) timers. -/
def minExpiry : List WebAPIEntry → Option Int
  | [] => none
  | w :: ws =>
      let restMin := minExpiry ws
      if w.cleared then restMin
      else
        let e := w.startTime + w.delay
        match restMin with
        | none => some e
        | some m => some (if e < m then e else m)

/-- `engine._advanceTimers` -/
def advanceTimers (s : EngineState) : EngineState :=
  if s.webAPIs.all (·.cleared) then s
  else
    match minExpiry s.webAPIs with
    | none => s
    | some m =>
        let s := if m > s.currentTime then { s with currentTime := m } else s
        let (ws', s) := advanceTimersGo s s.webAPIs
        { s with webAPIs := ws' }

/-- `engine._hasPendingWork` -/
def hasPendingWork (s : EngineState) : Bool :=
  !s.microtaskQueue.isEmpty || !s.macrotaskQueue.isEmpty ||
  !s.checkQueue.isEmpty || s.webAPIs.any (fun w => !w.cleared)

/-- `engine._processBrowserEventLoop`; `iterRemaining` counts the budget
left of the 500-iteration cap.  Note that exhausting either the iteration
cap or the drain guard simply stops the loop: no error is surfaced. -/
def browserLoop (fuel : Nat) : Nat → EngineState → EngineState :=
  Nat.rec (motive := fun _ => EngineState → EngineState)
    (fun s => s)
    (fun _ ih s =>
      if !hasPendingWork s then s
      else
        let s := drainMicrotasks fuel 200 s
        let s := advanceTimers s
        match s.macrotaskQueue with
        | task :: rest =>
            let s := { s with macrotaskQueue := rest }
            let s := executeMacrotask fuel task s
            ih s
        | [] =>
            let s := if s.webAPIs.any (fun w => !w.cleared)
              then advanceTimers s else s
            ih s)

/-- node timers phase: remove every queued task whose source is
`timeout`/`interval` (FIFO preserved) and execute them all. -/
def isTimerSource (t : QueuedTask) : Bool :=
  t.source = "timeout" || t.source = "interval"

def execAllTasks (fuel : Nat) : List QueuedTask → EngineState → EngineState
  | [], s => s
  | t :: ts, s => execAllTasks fuel ts (executeMacrotask fuel t s)

/-- check phase: `while (checkQueue.length > 0) shift-and-execute`. -/
def drainCheckQueue (fuel : Nat) : Nat → EngineState → EngineState :=
  Nat.rec (motive := fun _ => EngineState → EngineState)
    (fun s => s)
    (fun _ ih s =>
      match s.checkQueue with
      | [] => s
      | t :: ts =>
          let s := { s with checkQueue := ts }
          ih (executeMacrotask fuel t s))

/-- `engine._processNodeEventLoop`: the six-phase loop, draining
microtasks (nextTick first, then Promise tasks) between phases. -/
def nodeLoop (fuel : Nat) : Nat → EngineState → EngineState :=
  Nat.rec (motive := fun _ => EngineState → EngineState)
    (fun s => s)
    (fun _ ih s =>
    if !hasPendingWork s then s
    else
      -- Phase 1: Timers
      let s := advanceTimers s
      let s :=
        if !s.macrotaskQueue.isEmpty then
          let s := emit s .EVENT_LOOP_CHECK { phase := some "timers" }
          let timerTasks := s.macrotaskQueue.filter isTimerSource
          let s := { s with
            macrotaskQueue := s.macrotaskQueue.filter (!isTimerSource ·) }
          execAllTasks fuel timerTasks s
        else s
      let s := drainMicrotasks fuel 200 s
      -- Phase 2: Pending callbacks (not simulated)
      let s := emit s .EVENT_LOOP_CHECK { phase := some "pending" }
      let s := drainMicrotasks fuel 200 s
      -- Phase 3: Idle/Prepare — skipped
      -- Phase 4: Poll
      let s := emit s .EVENT_LOOP_CHECK { phase := some "poll" }
      let s := match s.macrotaskQueue with
        | task :: rest =>
            executeMacrotask fuel task { s with macrotaskQueue := rest }
        | [] => s
      let s := drainMicrotasks fuel 200 s
      -- Phase 5: Check (setImmediate)
      let s :=
        if !s.checkQueue.isEmpty then
          let s := emit s .EVENT_LOOP_CHECK { phase := some "check" }
          drainCheckQueue fuel (s.checkQueue.length + 1) s
        else s
      let s := drainMicrotasks fuel 200 s
      -- Phase 6: Close callbacks — marker only
      let s := emit s .EVENT_LOOP_CHECK { phase := some "close" }
      let s :=
        if s.microtaskQueue.isEmpty && s.macrotaskQueue.isEmpty &&
           s.checkQueue.isEmpty && s.webAPIs.any (fun w => !w.cleared)
        then advanceTimers s else s
      ih s)

def processEventLoop (fuel : Nat) (s : EngineState) : EngineState :=
  match s.mode with
  | .node => nodeLoop fuel 500 s
  | .browser => browserLoop fuel 500 s

/-! ## Engine entry point (`ExecutionEngine.run`)

Parsing is the out-of-scope black box; `run` takes the already-parsed
program body.  `_reset` corresponds to starting from `initState`. -/

/-- the synchronous phase of `run`: reset, build the global scope, wrap the
program in the `<global>` frame and evaluate it. -/
def runSync (fuel : Nat) (mode : RuntimeMode) (prog : List Node)
    (oracle : List Int) : EngineState :=
  let s := initState mode oracle
  let (globalEnv, s) := createGlobalEnvS s mode
  let s := pushStack s "<global>" 1
  -- evalProgram: hoist function declarations, then run with skipFnDecl
  let s := hoistFnDecls globalEnv prog s
  let (r, s) := evalBlock fuel prog globalEnv none true (.val .undef) s
  let s := match r with
    | .thrown e => handleError s e
    | _ => s
  popStack s

/-- `ExecutionEngine.run` (post-parse): synchronous phase, then the event
loop; the accumulated step trace is always returned. -/
def run (fuel : Nat) (mode : RuntimeMode) (prog : List Node)
    (oracle : List Int) : EngineState :=
  processEventLoop fuel (runSync fuel mode prog oracle)

/-! ## Trace projections used by the theorems

These project the heterogeneous step/console records onto decidable data
(strings, naturals) so concrete claims can be settled by `decide`. -/

/-- the console stream: the stringified argument lists in emission order. -/
def consoleStream (s : EngineState) : List (List String) :=
  s.consoleOutput.map (·.args)

def consoleIsAllLogs (s : EngineState) : Bool :=
  s.consoleOutput.all (·.ctype = .log)

/-- the console-step payloads of the step stream itself. -/
def stepConsoleArgs (s : EngineState) : List (List String) :=
  s.steps.filterMap fun st =>
    match st.type with
    | .CONSOLE_LOG | .CONSOLE_WARN | .CONSOLE_ERROR => st.payload.args
    | _ => none

/-- a decidable signature of one step (drops the raw runtime values). -/
structure StepSig where
  type : StepType
  idStr : Option String
  idNum : Option Nat
  name : Option String
  label : Option String
  phase : Option String
  args : Option (List String)
  deriving DecidableEq, Repr

def sigOf (st : Step) : StepSig :=
  ⟨st.type, st.payload.idStr, st.payload.idNum, st.payload.name,
   st.payload.label, st.payload.phase, st.payload.args⟩

def sigsOf (s : EngineState) : List StepSig := s.steps.map sigOf

/-- the full byte-comparable content of one step: every payload key and
the step's own line and timestamp.  Only the `raw` runtime values are
dropped (they are mirrored verbatim as strings in `args`). -/
structure StepData where
  type : StepType
  idStr : Option String
  idNum : Option Nat
  name : Option String
  label : Option String
  source : Option String
  phase : Option String
  delay : Option Int
  lineP : Option Int
  args : Option (List String)
  line : Option Int
  timestamp : Int
  deriving DecidableEq, Repr

def stepData (st : Step) : StepData :=
  ⟨st.type, st.payload.idStr, st.payload.idNum, st.payload.name,
   st.payload.label, st.payload.source, st.payload.phase,
   st.payload.delay, st.payload.lineP, st.payload.args,
   st.line, st.timestamp⟩

def stepsData (s : EngineState) : List StepData := s.steps.map stepData

/-- ids of PUSH_STACK steps, in order. -/
def pushIds (s : EngineState) : List String :=
  s.steps.filterMap fun st =>
    match st.type with
    | .PUSH_STACK => st.payload.idStr
    | _ => none

/-- ids of POP_STACK steps, in order. -/
def popIds (s : EngineState) : List String :=
  s.steps.filterMap fun st =>
    match st.type with
    | .POP_STACK => st.payload.idStr
    | _ => none

/-- claim C2's matching property: every PUSH_STACK id has a POP_STACK with
the same id somewhere in the stream. -/
def stackMatched (s : EngineState) : Bool :=
  (pushIds s).all (fun i => (popIds s).contains i)

/-- claim C2's prefix property: POP_STACK never outnumbers PUSH_STACK in
any prefix of the stream. -/
def stackPrefixOk (s : EngineState) : Bool :=
  (List.range (s.steps.length + 1)).all fun n =>
    (popIds { s with steps := s.steps.take n }).length ≤
    (pushIds { s with steps := s.steps.take n }).length

/-! ## The claim programs (concrete parsed sources) -/

/-- `console.log(<arg>)` -/
def cLog (arg : Node) : Node :=
  .call (.member (.ident "console") "log") [arg] 1

/-- `console.log("<s>")` -/
def logS (s : String) : Node := cLog (.lit (.str s))

/-- `Promise.resolve()` -/
def promiseResolveCall : Node :=
  .call (.member (.ident "Promise") "resolve") [] 1

/-- Scenario 1 source (claims C3, C5, C8):
`console.log("A"); setTimeout(()=>console.log("B"),0);
Promise.resolve().then(()=>console.log("C")); console.log("D");` -/
def progScenario1 : List Node :=
  [ .exprStmt (logS "A") 1,
    .exprStmt (.call (.ident "setTimeout")
      [.arrow [] (logS "B") false 1, .lit (.int 0)] 1) 1,
    .exprStmt (.call (.member promiseResolveCall "then")
      [.arrow [] (logS "C") false 1] 1) 1,
    .exprStmt (logS "D") 1 ]

/-- Scenario 3 source (claim C1):
`async function f(){console.log("s"); await Promise.resolve();
console.log("e");} console.log("1"); f(); console.log("2");` -/
def progAsyncF : List Node :=
  [ .funcDecl "f" []
      (.blockStmt
        [ .exprStmt (logS "s") 1,
          .exprStmt (.awaitE promiseResolveCall) 1,
          .exprStmt (logS "e") 1 ] 1) true 1,
    .exprStmt (logS "1") 1,
    .exprStmt (.call (.ident "f") [] 1) 1,
    .exprStmt (logS "2") 1 ]

/-- claim C2 failing input: `Promise(() => { throw "boom"; });`
(the native `Promise` call's executor throws, so the native-call path of
`evalCall` unwinds without popping the frame it pushed). -/
def progNativeThrow : List Node :=
  [ .exprStmt (.call (.ident "Promise")
      [.arrow [] (.blockStmt [.throwStmt (.lit (.str "boom")) 1] 1)
        false 1] 1) 1 ]

/-- the queued task that one `queueMicrotask(0)` call appends (the builtin
wraps the non-callable `0` into the silent no-op callback): after `k`
earlier tasks its id is `micro-(k+1)`. -/
def noopTask (k : Nat) : QueuedTask :=
  ⟨s!"micro-{k + 1}", "queueMicrotask", .wrapped .invalid, "queueMicrotask"⟩

def noopTasks (n : Nat) : List QueuedTask := (List.range n).map noopTask

/-- claim C4 input: the engine state produced by 201 `queueMicrotask(0);`
calls — 201 scheduled no-op microtasks, one more than the per-drain guard
of 200 (see `callNative_queueMicrotask_noop` for the correspondence with
the builtin). -/
def c4State : EngineState :=
  { initState .browser [] with microtaskQueue := noopTasks 201, taskId := 201 }

/-- claim C7 input (throw):
`function g(){ try { throw "boom"; } finally { console.log("fin"); }
return "after"; } console.log(g());` -/
def progTryFinallyThrow : List Node :=
  [ .funcDecl "g" []
      (.blockStmt
        [ .tryStmt [.throwStmt (.lit (.str "boom")) 1] none none
            (some [.exprStmt (logS "fin") 1]) 1,
          .returnStmt (some (.lit (.str "after"))) 1 ] 1) false 1,
    .exprStmt (cLog (.call (.ident "g") [] 1)) 1 ]

/-- claim C7 input (return):
`function h(){ try { return 1; } finally { console.log("F"); } }
console.log(h());` -/
def progTryFinallyReturn : List Node :=
  [ .funcDecl "h" []
      (.blockStmt
        [ .tryStmt [.returnStmt (some (.lit (.int 1))) 1] none none
            (some [.exprStmt (logS "F") 1]) 1 ] 1) false 1,
    .exprStmt (cLog (.call (.ident "h") [] 1)) 1 ]

/-- claim C8 input: `console.log(Math.random());` -/
def progMathRandom : List Node :=
  [ .exprStmt (cLog (.call (.member (.ident "Math") "random") [] 1)) 1 ]

/-- claim C9 input (node mode):
`process.nextTick(()=>console.log("N1"));
process.nextTick(()=>console.log("N2"));
Promise.resolve().then(()=>console.log("P"));` -/
def progNextTick : List Node :=
  [ .exprStmt (.call (.member (.ident "process") "nextTick")
      [.arrow [] (logS "N1") false 1] 1) 1,
    .exprStmt (.call (.member (.ident "process") "nextTick")
      [.arrow [] (logS "N2") false 1] 1) 1,
    .exprStmt (.call (.member promiseResolveCall "then")
      [.arrow [] (logS "P") false 1] 1) 1 ]

/-! ## Interleavings of promise settlement calls (claim C6) -/

/-- one external settlement call on the promise heap. -/
inductive POp where
  | resolve (pid : Nat) (v : Value)
  | reject (pid : Nat) (v : Value)

def applyPOp (fuel : Nat) (op : POp) (s : EngineState) : EngineState :=
  match op with
  | .resolve p v => promiseResolve fuel p v s
  | .reject p v => promiseReject fuel p v s

def applyPOps (fuel : Nat) : List POp → EngineState → EngineState
  | [], s => s
  | op :: ops, s => applyPOps fuel ops (applyPOp fuel op s)

/-- a heap with one settled and one pending promise (claim C6 witness). -/
def promiseWitnessState : EngineState :=
  { initState .browser [] with
      promises := [⟨.fulfilled, .num 7, []⟩, ⟨.pending, .undef, []⟩] }

/-- state `s'` keeps every settled promise of `s` at the same state and
value (only its handler list may differ): the one-way-settlement
invariant preserved by the promise-heap operations (claim C6). -/
def settledPreserved (s s' : EngineState) : Prop :=
  ∀ pid st v hs, getPromise s pid = some ⟨st, v, hs⟩ → st ≠ PState.pending →
    ∃ hs', getPromise s' pid = some ⟨st, v, hs'⟩

/-! ## Timer-table fixtures (claim C10) -/

/-- a registered `setTimeout` entry. -/
def c10Timeout : WebAPIEntry :=
  ⟨1, "setTimeout(0ms)", 0, 0, .wrapped .invalid, .timeout, false⟩

/-- a registered `setInterval` entry. -/
def c10Interval : WebAPIEntry :=
  ⟨2, "setInterval(5ms)", 5, 0, .wrapped .invalid, .interval, false⟩

/-- a state holding one timeout and one interval timer. -/
def c10State : EngineState :=
  { initState .browser [] with webAPIs := [c10Timeout, c10Interval] }

/-- the literal step data of the scenario-1 browser run, as evaluated
(claim C8); the run is oracle-independent, so both concrete-oracle runs
reduce to this list. -/
def scenario1StepData : List StepData :=
  [{ type := JSRT.StepType.PUSH_STACK,
     idStr := some "frame-1",
     idNum := none,
     name := some "<global>",
     label := none,
     source := none,
     phase := none,
     delay := none,
     lineP := some 1,
     args := none,
     line := some 1,
     timestamp := 0 },
   { type := JSRT.StepType.HIGHLIGHT_LINE,
     idStr := none,
     idNum := none,
     name := none,
     label := none,
     source := none,
     phase := none,
     delay := none,
     lineP := none,
     args := none,
     line := some 1,
     timestamp := 0 },
   { type := JSRT.StepType.PUSH_STACK,
     idStr := some "frame-2",
     idNum := none,
     name := some "console.log",
     label := none,
     source := none,
     phase := none,
     delay := none,
     lineP := some 1,
     args := none,
     line := some 1,
     timestamp := 0 },
   { type := JSRT.StepType.HIGHLIGHT_LINE,
     idStr := none,
     idNum := none,
     name := none,
     label := none,
     source := none,
     phase := none,
     delay := none,
     lineP := none,
     args := none,
     line := some 1,
     timestamp := 0 },
   { type := JSRT.StepType.CONSOLE_LOG,
     idStr := none,
     idNum := none,
     name := none,
     label := none,
     source := none,
     phase := none,
     delay := none,
     lineP := none,
     args := some ["A"],
     line := none,
     timestamp := 0 },
   { type := JSRT.StepType.POP_STACK,
     idStr := some "frame-2",
     idNum := none,
     name := some "console.log",
     label := none,
     source := none,
     phase := none,
     delay := none,
     lineP := none,
     args := none,
     line := none,
     timestamp := 0 },
   { type := JSRT.StepType.HIGHLIGHT_LINE,
     idStr := none,
     idNum := none,
     name := none,
     label := none,
     source := none,
     phase := none,
     delay := none,
     lineP := none,
     args := none,
     line := some 1,
     timestamp := 0 },
   { type := JSRT.StepType.PUSH_STACK,
     idStr := some "frame-3",
     idNum := none,
     name := some "setTimeout",
     label := none,
     source := none,
     phase := none,
     delay := none,
     lineP := some 1,
     args := none,
     line := some 1,
     timestamp := 0 },
   { type := JSRT.StepType.HIGHLIGHT_LINE,
     idStr := none,
     idNum := none,
     name := none,
     label := none,
     source := none,
     phase := none,
     delay := none,
     lineP := none,
     args := none,
     line := some 1,
     timestamp := 0 },
   { type := JSRT.StepType.REGISTER_WEB_API,
     idStr := none,
     idNum := some 1,
     name := none,
     label := some "setTimeout(0ms)",
     source := none,
     phase := none,
     delay := some 0,
     lineP := none,
     args := none,
     line := none,
     timestamp := 0 },
   { type := JSRT.StepType.POP_STACK,
     idStr := some "frame-3",
     idNum := none,
     name := some "setTimeout",
     label := none,
     source := none,
     phase := none,
     delay := none,
     lineP := none,
     args := none,
     line := none,
     timestamp := 0 },
   { type := JSRT.StepType.HIGHLIGHT_LINE,
     idStr := none,
     idNum := none,
     name := none,
     label := none,
     source := none,
     phase := none,
     delay := none,
     lineP := none,
     args := none,
     line := some 1,
     timestamp := 0 },
   { type := JSRT.StepType.PUSH_STACK,
     idStr := some "frame-4",
     idNum := none,
     name := some "Promise.resolve",
     label := none,
     source := none,
     phase := none,
     delay := none,
     lineP := some 1,
     args := none,
     line := some 1,
     timestamp := 0 },
   { type := JSRT.StepType.HIGHLIGHT_LINE,
     idStr := none,
     idNum := none,
     name := none,
     label := none,
     source := none,
     phase := none,
     delay := none,
     lineP := none,
     args := none,
     line := some 1,
     timestamp := 0 },
   { type := JSRT.StepType.POP_STACK,
     idStr := some "frame-4",
     idNum := none,
     name := some "Promise.resolve",
     label := none,
     source := none,
     phase := none,
     delay := none,
     lineP := none,
     args := none,
     line := none,
     timestamp := 0 },
   { type := JSRT.StepType.SCHEDULE_MICROTASK,
     idStr := none,
     idNum := none,
     name := none,
     label := some ".then()",
     source := none,
     phase := none,
     delay := none,
     lineP := none,
     args := none,
     line := none,
     timestamp := 0 },
   { type := JSRT.StepType.HIGHLIGHT_LINE,
     idStr := none,
     idNum := none,
     name := none,
     label := none,
     source := none,
     phase := none,
     delay := none,
     lineP := none,
     args := none,
     line := some 1,
     timestamp := 0 },
   { type := JSRT.StepType.PUSH_STACK,
     idStr := some "frame-5",
     idNum := none,
     name := some "console.log",
     label := none,
     source := none,
     phase := none,
     delay := none,
     lineP := some 1,
     args := none,
     line := some 1,
     timestamp := 0 },
   { type := JSRT.StepType.HIGHLIGHT_LINE,
     idStr := none,
     idNum := none,
     name := none,
     label := none,
     source := none,
     phase := none,
     delay := none,
     lineP := none,
     args := none,
     line := some 1,
     timestamp := 0 },
   { type := JSRT.StepType.CONSOLE_LOG,
     idStr := none,
     idNum := none,
     name := none,
     label := none,
     source := none,
     phase := none,
     delay := none,
     lineP := none,
     args := some ["D"],
     line := none,
     timestamp := 0 },
   { type := JSRT.StepType.POP_STACK,
     idStr := some "frame-5",
     idNum := none,
     name := some "console.log",
     label := none,
     source := none,
     phase := none,
     delay := none,
     lineP := none,
     args := none,
     line := none,
     timestamp := 0 },
   { type := JSRT.StepType.POP_STACK,
     idStr := some "frame-1",
     idNum := none,
     name := some "<global>",
     label := none,
     source := none,
     phase := none,
     delay := none,
     lineP := none,
     args := none,
     line := none,
     timestamp := 0 },
   { type := JSRT.StepType.EVENT_LOOP_CHECK,
     idStr := none,
     idNum := none,
     name := none,
     label := none,
     source := none,
     phase := some "microtask",
     delay := none,
     lineP := none,
     args := none,
     line := none,
     timestamp := 0 },
   { type := JSRT.StepType.DEQUEUE_MICROTASK,
     idStr := some "micro-1",
     idNum := none,
     name := none,
     label := some "Promise.then",
     source := none,
     phase := none,
     delay := none,
     lineP := none,
     args := none,
     line := none,
     timestamp := 0 },
   { type := JSRT.StepType.EXECUTE_MICROTASK,
     idStr := some "micro-1",
     idNum := none,
     name := none,
     label := some "Promise.then",
     source := none,
     phase := none,
     delay := none,
     lineP := none,
     args := none,
     line := none,
     timestamp := 0 },
   { type := JSRT.StepType.PUSH_STACK,
     idStr := some "frame-6",
     idNum := none,
     name := some "Promise.then",
     label := none,
     source := none,
     phase := none,
     delay := none,
     lineP := some 0,
     args := none,
     line := some 0,
     timestamp := 0 },
   { type := JSRT.StepType.PUSH_STACK,
     idStr := some "frame-7",
     idNum := none,
     name := some "<arrow>",
     label := none,
     source := none,
     phase := none,
     delay := none,
     lineP := some 1,
     args := none,
     line := some 1,
     timestamp := 0 },
   { type := JSRT.StepType.HIGHLIGHT_LINE,
     idStr := none,
     idNum := none,
     name := none,
     label := none,
     source := none,
     phase := none,
     delay := none,
     lineP := none,
     args := none,
     line := some 1,
     timestamp := 0 },
   { type := JSRT.StepType.PUSH_STACK,
     idStr := some "frame-8",
     idNum := none,
     name := some "console.log",
     label := none,
     source := none,
     phase := none,
     delay := none,
     lineP := some 1,
     args := none,
     line := some 1,
     timestamp := 0 },
   { type := JSRT.StepType.HIGHLIGHT_LINE,
     idStr := none,
     idNum := none,
     name := none,
     label := none,
     source := none,
     phase := none,
     delay := none,
     lineP := none,
     args := none,
     line := some 1,
     timestamp := 0 },
   { type := JSRT.StepType.CONSOLE_LOG,
     idStr := none,
     idNum := none,
     name := none,
     label := none,
     source := none,
     phase := none,
     delay := none,
     lineP := none,
     args := some ["C"],
     line := none,
     timestamp := 0 },
   { type := JSRT.StepType.POP_STACK,
     idStr := some "frame-8",
     idNum := none,
     name := some "console.log",
     label := none,
     source := none,
     phase := none,
     delay := none,
     lineP := none,
     args := none,
     line := none,
     timestamp := 0 },
   { type := JSRT.StepType.POP_STACK,
     idStr := some "frame-7",
     idNum := none,
     name := some "<arrow>",
     label := none,
     source := none,
     phase := none,
     delay := none,
     lineP := none,
     args := none,
     line := none,
     timestamp := 0 },
   { type := JSRT.StepType.POP_STACK,
     idStr := some "frame-6",
     idNum := none,
     name := some "Promise.then",
     label := none,
     source := none,
     phase := none,
     delay := none,
     lineP := none,
     args := none,
     line := none,
     timestamp := 0 },
   { type := JSRT.StepType.RESOLVE_WEB_API,
     idStr := none,
     idNum := some 1,
     name := none,
     label := some "setTimeout(0ms)",
     source := none,
     phase := none,
     delay := none,
     lineP := none,
     args := none,
     line := none,
     timestamp := 0 },
   { type := JSRT.StepType.SCHEDULE_MACROTASK,
     idStr := some "macro-2",
     idNum := none,
     name := none,
     label := some "setTimeout(0ms)",
     source := none,
     phase := none,
     delay := none,
     lineP := none,
     args := none,
     line := none,
     timestamp := 0 },
   { type := JSRT.StepType.DEQUEUE_MACROTASK,
     idStr := some "macro-2",
     idNum := none,
     name := none,
     label := some "setTimeout(0ms)",
     source := none,
     phase := none,
     delay := none,
     lineP := none,
     args := none,
     line := none,
     timestamp := 0 },
   { type := JSRT.StepType.EXECUTE_MACROTASK,
     idStr := some "macro-2",
     idNum := none,
     name := none,
     label := some "setTimeout(0ms)",
     source := none,
     phase := none,
     delay := none,
     lineP := none,
     args := none,
     line := none,
     timestamp := 0 },
   { type := JSRT.StepType.PUSH_STACK,
     idStr := some "frame-9",
     idNum := none,
     name := some "setTimeout(0ms)",
     label := none,
     source := none,
     phase := none,
     delay := none,
     lineP := some 0,
     args := none,
     line := some 0,
     timestamp := 0 },
   { type := JSRT.StepType.PUSH_STACK,
     idStr := some "frame-10",
     idNum := none,
     name := some "<arrow>",
     label := none,
     source := none,
     phase := none,
     delay := none,
     lineP := some 1,
     args := none,
     line := some 1,
     timestamp := 0 },
   { type := JSRT.StepType.HIGHLIGHT_LINE,
     idStr := none,
     idNum := none,
     name := none,
     label := none,
     source := none,
     phase := none,
     delay := none,
     lineP := none,
     args := none,
     line := some 1,
     timestamp := 0 },
   { type := JSRT.StepType.PUSH_STACK,
     idStr := some "frame-11",
     idNum := none,
     name := some "console.log",
     label := none,
     source := none,
     phase := none,
     delay := none,
     lineP := some 1,
     args := none,
     line := some 1,
     timestamp := 0 },
   { type := JSRT.StepType.HIGHLIGHT_LINE,
     idStr := none,
     idNum := none,
     name := none,
     label := none,
     source := none,
     phase := none,
     delay := none,
     lineP := none,
     args := none,
     line := some 1,
     timestamp := 0 },
   { type := JSRT.StepType.CONSOLE_LOG,
     idStr := none,
     idNum := none,
     name := none,
     label := none,
     source := none,
     phase := none,
     delay := none,
     lineP := none,
     args := some ["B"],
     line := none,
     timestamp := 0 },
   { type := JSRT.StepType.POP_STACK,
     idStr := some "frame-11",
     idNum := none,
     name := some "console.log",
     label := none,
     source := none,
     phase := none,
     delay := none,
     lineP := none,
     args := none,
     line := none,
     timestamp := 0 },
   { type := JSRT.StepType.POP_STACK,
     idStr := some "frame-10",
     idNum := none,
     name := some "<arrow>",
     label := none,
     source := none,
     phase := none,
     delay := none,
     lineP := none,
     args := none,
     line := none,
     timestamp := 0 },
   { type := JSRT.StepType.POP_STACK,
     idStr := some "frame-9",
     idNum := none,
     name := some "setTimeout(0ms)",
     label := none,
     source := none,
     phase := none,
     delay := none,
     lineP := none,
     args := none,
     line := none,
     timestamp := 0 }]

/-- `requestAnimationFrame(()=>console.log("R"));` -/
def progRAF : List Node :=
  [ .exprStmt (.call (.ident "requestAnimationFrame")
      [.arrow [] (logS "R") false 1] 1) 1 ]

/-! ## A live 0 ms interval workload (claim C4: the outer iteration cap)

`ivState steps sid tid` is an engine state holding one uncleared 0 ms
interval timer and nothing else pending: every browser-loop iteration
resolves the timer, queues and executes its (no-op) macrotask, and
reschedules it, emitting six trace steps — so the loop always consumes
its whole iteration budget. -/

/-- the RESOLVE_WEB_API step of one interval iteration. -/
def ivResolveStep : Step :=
  { type := .RESOLVE_WEB_API
    payload := { idNum := some 1, label := some "setInterval(0ms)" }
    timestamp := 0 }

/-- the SCHEDULE_MACROTASK step of one interval iteration. -/
def ivSchedStep (tid : Nat) : Step :=
  { type := .SCHEDULE_MACROTASK
    payload := { idStr := some s!"macro-{tid + 1}"
                 label := some "setInterval(0ms)" }
    timestamp := 0 }

/-- the DEQUEUE_MACROTASK step of one interval iteration. -/
def ivDeqStep (tid : Nat) : Step :=
  { type := .DEQUEUE_MACROTASK
    payload := { idStr := some s!"macro-{tid + 1}"
                 label := some "setInterval(0ms)" }
    timestamp := 0 }

/-- the EXECUTE_MACROTASK step of one interval iteration. -/
def ivExecStep (tid : Nat) : Step :=
  { type := .EXECUTE_MACROTASK
    payload := { idStr := some s!"macro-{tid + 1}"
                 label := some "setInterval(0ms)" }
    timestamp := 0 }

/-- the PUSH_STACK step of one interval iteration. -/
def ivPushStep (sid : Nat) : Step :=
  { type := .PUSH_STACK
    payload := { idStr := some s!"frame-{sid + 1}"
                 name := some "setInterval(0ms)"
                 lineP := some 0 }
    line := some 0
    timestamp := 0 }

/-- the POP_STACK step of one interval iteration. -/
def ivPopStep (sid : Nat) : Step :=
  { type := .POP_STACK
    payload := { idStr := some s!"frame-{sid + 1}"
                 name := some "setInterval(0ms)" }
    timestamp := 0 }

/-- engine state with one pending 0 ms interval (trace and counters
parametric). -/
def ivState (steps : List Step) (sid tid : Nat) : EngineState :=
  { initState .browser [] with
      webAPIs := [⟨1, "setInterval(0ms)", 0, 0, .wrapped .invalid,
        .interval, false⟩]
      timerId := 1
      steps := steps
      stepId := sid
      taskId := tid }

/-- the initial interval workload (claim C4). -/
def c4IntervalState : EngineState := ivState [] 0 0

/-! ## Helper lemmas

Field-preservation facts about the primitive engine operations, unfolding
equations for the `Nat.rec`-iterated loops, and the behaviour of a drain
over no-op tasks.  These feed the claim theorems below. -/

theorem emit_errors (s : EngineState) (t : StepType) (p : Payload)
    (l : Option Int) : (emit s t p l).errors = s.errors := by
  cases t <;> rfl

theorem emit_micro (s : EngineState) (t : StepType) (p : Payload)
    (l : Option Int) : (emit s t p l).microtaskQueue = s.microtaskQueue := by
  cases t <;> rfl

theorem emit_macro (s : EngineState) (t : StepType) (p : Payload)
    (l : Option Int) : (emit s t p l).macrotaskQueue = s.macrotaskQueue := by
  cases t <;> rfl

theorem emit_check (s : EngineState) (t : StepType) (p : Payload)
    (l : Option Int) : (emit s t p l).checkQueue = s.checkQueue := by
  cases t <;> rfl

theorem emit_webAPIs (s : EngineState) (t : StepType) (p : Payload)
    (l : Option Int) : (emit s t p l).webAPIs = s.webAPIs := by
  cases t <;> rfl

theorem emit_callStack (s : EngineState) (t : StepType) (p : Payload)
    (l : Option Int) : (emit s t p l).callStack = s.callStack := by
  cases t <;> rfl

theorem emit_mode (s : EngineState) (t : StepType) (p : Payload)
    (l : Option Int) : (emit s t p l).mode = s.mode := by
  cases t <;> rfl

theorem emit_time (s : EngineState) (t : StepType) (p : Payload)
    (l : Option Int) : (emit s t p l).currentTime = s.currentTime := by
  cases t <;> rfl

theorem emit_steps_length (s : EngineState) (t : StepType) (p : Payload)
    (l : Option Int) : (emit s t p l).steps.length = s.steps.length + 1 := by
  cases t <;> simp [emit]

/-- the wrapped no-op callback runs without touching the state. -/
theorem runCallback_invalid (g : Nat) (s : EngineState) :
    runCallback (g + 1) (.wrapped .invalid) s = (.val .undef, s) := rfl

theorem drainMicrotasks_zero (fuel : Nat) (s : EngineState) :
    drainMicrotasks fuel 0 s = s := rfl

theorem drainMicrotasks_succ (fuel n : Nat) (s : EngineState) :
    drainMicrotasks fuel (n + 1) s =
      match s.microtaskQueue with
      | [] => s
      | task :: rest =>
          let s := { s with microtaskQueue := rest }
          let s := emit s .EVENT_LOOP_CHECK { phase := some "microtask" }
          let s := emit s .DEQUEUE_MICROTASK
            { idStr := some task.id, label := some task.label }
          let s := emit s .EXECUTE_MICROTASK
            { idStr := some task.id, label := some task.label }
          let s := pushStack s task.label 0
          let s := match runCallback fuel task.callback s with
            | (.thrown e, s) => handleError s e
            | (_, s) => s
          let s := popStack s
          drainMicrotasks fuel n s := rfl

theorem browserLoop_zero (fuel : Nat) (s : EngineState) :
    browserLoop fuel 0 s = s := rfl

theorem browserLoop_succ (fuel n : Nat) (s : EngineState) :
    browserLoop fuel (n + 1) s =
      if !hasPendingWork s then s
      else
        let s := drainMicrotasks fuel 200 s
        let s := advanceTimers s
        match s.macrotaskQueue with
        | task :: rest =>
            let s := { s with macrotaskQueue := rest }
            let s := executeMacrotask fuel task s
            browserLoop fuel n s
        | [] =>
            let s := if s.webAPIs.any (fun w => !w.cleared)
              then advanceTimers s else s
            browserLoop fuel n s := rfl

/-- with no registered timers, `_advanceTimers` does nothing. -/
theorem advanceTimers_noTimers (s : EngineState) (h : s.webAPIs = []) :
    advanceTimers s = s := by
  unfold advanceTimers
  rw [h]
  rfl

theorem popStack_eq (s : EngineState) (f : StackFrame)
    (cs : List StackFrame) (h : s.callStack = f :: cs) :
    popStack s = emit { s with callStack := cs } .POP_STACK
      { idStr := some f.id, name := some f.name } := by
  unfold popStack
  rw [h]

theorem pushStack_callStack (s : EngineState) (name : String) (line : Int) :
    (pushStack s name line).callStack =
      ⟨s!"frame-{s.stepId + 1}", name, line⟩ :: s.callStack := by
  simp [pushStack, emit_callStack]

/-- the net effect of one drain iteration around a no-op callback: the
task leaves the queue, five steps are appended, and the rest of the engine
is untouched (the pushed frame is popped again). -/
theorem noop_iter (s : EngineState) (τ₁ τ₂ τ₃ : StepType)
    (p₁ p₂ p₃ : Payload) (label : String) (rest : List QueuedTask) :
    let Z := popStack (pushStack
      (emit (emit (emit { s with microtaskQueue := rest } τ₁ p₁) τ₂ p₂) τ₃ p₃)
      label 0)
    Z.microtaskQueue = rest ∧ Z.errors = s.errors ∧
    Z.macrotaskQueue = s.macrotaskQueue ∧ Z.checkQueue = s.checkQueue ∧
    Z.webAPIs = s.webAPIs ∧ Z.callStack = s.callStack ∧
    Z.mode = s.mode ∧ Z.currentTime = s.currentTime ∧
    Z.steps.length = s.steps.length + 5 := by
  dsimp only
  set X := emit (emit (emit { s with microtaskQueue := rest } τ₁ p₁) τ₂ p₂)
    τ₃ p₃ with hX
  have hps := pushStack_callStack X label 0
  rw [popStack_eq _ _ _ hps]
  refine ⟨?_, ?_, ?_, ?_, ?_, ?_, ?_, ?_, ?_⟩ <;>
    simp [hX, pushStack, emit_errors, emit_micro, emit_macro, emit_check,
      emit_webAPIs, emit_callStack, emit_mode, emit_time,
      emit_steps_length] <;>
    omega

/-- draining a queue of no-op tasks: the guard processes at most
`allowance` tasks, the rest stay queued, no error is appended, every other
engine component is untouched, and exactly five trace steps are emitted
per processed task. -/
theorem drainMicrotasks_noop (g : Nat) (allowance : Nat) :
    ∀ (s : EngineState),
    (∀ t ∈ s.microtaskQueue, t.callback = Callback.wrapped .invalid) →
    (drainMicrotasks (g + 1) allowance s).microtaskQueue =
        s.microtaskQueue.drop allowance ∧
    (drainMicrotasks (g + 1) allowance s).errors = s.errors ∧
    (drainMicrotasks (g + 1) allowance s).macrotaskQueue =
        s.macrotaskQueue ∧
    (drainMicrotasks (g + 1) allowance s).checkQueue = s.checkQueue ∧
    (drainMicrotasks (g + 1) allowance s).webAPIs = s.webAPIs ∧
    (drainMicrotasks (g + 1) allowance s).callStack = s.callStack ∧
    (drainMicrotasks (g + 1) allowance s).mode = s.mode ∧
    (drainMicrotasks (g + 1) allowance s).currentTime = s.currentTime ∧
    (drainMicrotasks (g + 1) allowance s).steps.length =
        s.steps.length + 5 * min allowance s.microtaskQueue.length := by
  induction allowance with
  | zero =>
      intro s _
      simp [drainMicrotasks_zero]
  | succ n ih =>
      intro s hq
      rw [drainMicrotasks_succ]
      cases hμ : s.microtaskQueue with
      | nil => simp [hμ]
      | cons task rest =>
          have hcb : task.callback = Callback.wrapped .invalid :=
            hq task (by rw [hμ]; exact List.mem_cons_self _ _)
          dsimp only
          rw [hcb, runCallback_invalid]
          dsimp only
          obtain ⟨z1, z2, z3, z4, z5, z6, z7, z8, z9⟩ :=
            noop_iter s .EVENT_LOOP_CHECK .DEQUEUE_MICROTASK
              .EXECUTE_MICROTASK { phase := some "microtask" }
              { idStr := some task.id, label := some task.label }
              { idStr := some task.id, label := some task.label }
              task.label rest
          have hrest : ∀ t ∈ (popStack (pushStack
              (emit (emit (emit { s with microtaskQueue := rest }
                .EVENT_LOOP_CHECK { phase := some "microtask" })
                .DEQUEUE_MICROTASK
                { idStr := some task.id, label := some task.label })
                .EXECUTE_MICROTASK
                { idStr := some task.id, label := some task.label })
              task.label 0)).microtaskQueue,
              t.callback = Callback.wrapped .invalid := by
            rw [z1]
            intro t ht
            refine hq t ?_
            rw [hμ]
            exact List.mem_cons_of_mem _ ht
          obtain ⟨q1, q2, q3, q4, q5, q6, q7, q8, q9⟩ := ih _ hrest
          refine ⟨?_, ?_, ?_, ?_, ?_, ?_, ?_, ?_, ?_⟩ <;>
            simp [q1, q2, q3, q4, q5, q6, q7, q8, q9, z1, z2, z3, z4, z5,
              z6, z7, z8, z9, hμ] <;> omega

/-- one `queueMicrotask(0)` call appends exactly one silent no-op task
(and emits the SCHEDULE_MICROTASK step): the queue of `c4State` is what
201 such calls build. -/
theorem callNative_queueMicrotask_noop (g : Nat) (s : EngineState) :
    callNative (g + 1) .queueMicrotaskN [.num 0] s =
      (.val .undef,
        emit
          { s with
              taskId := s.taskId + 1
              microtaskQueue := s.microtaskQueue ++ [noopTask s.taskId] }
          .SCHEDULE_MICROTASK { label := some "queueMicrotask" }) := rfl

/-- every task in the `c4State` queue is the silent no-op. -/
theorem c4State_queue_invalid :
    ∀ t ∈ c4State.microtaskQueue, t.callback = Callback.wrapped .invalid := by
  intro t ht
  have hμ : c4State.microtaskQueue = (List.range 201).map noopTask := rfl
  rw [hμ, List.mem_map] at ht
  obtain ⟨i, _, rfl⟩ := ht
  rfl

theorem noopTasks_drop_200 : (noopTasks 201).drop 200 = [noopTask 200] := by
  have h200 : noopTasks 201 = noopTasks 200 ++ [noopTask 200] := by
    rw [noopTasks, List.range_succ, List.map_append]
    rfl
  have hlen : (noopTasks 200).length = 200 := by simp [noopTasks]
  have hdl := List.drop_left (noopTasks 200) [noopTask 200]
  rw [hlen] at hdl
  rw [h200, hdl]

/-- the first drain over `c4State` hits the 200-task guard: one task is
left queued, no error is appended, and 1000 trace steps are emitted. -/
theorem c4_drain_facts :
    (drainMicrotasks 1000 200 c4State).microtaskQueue = [noopTask 200] ∧
    (drainMicrotasks 1000 200 c4State).errors = [] ∧
    (drainMicrotasks 1000 200 c4State).macrotaskQueue = [] ∧
    (drainMicrotasks 1000 200 c4State).checkQueue = [] ∧
    (drainMicrotasks 1000 200 c4State).webAPIs = [] ∧
    (drainMicrotasks 1000 200 c4State).steps.length = 1000 := by
  have h := drainMicrotasks_noop 999 200 c4State c4State_queue_invalid
  simp only [show (999 : Nat) + 1 = 1000 from rfl] at h
  obtain ⟨h1, h2, h3, h4, h5, _, _, _, h9⟩ := h
  have hμ : c4State.microtaskQueue = noopTasks 201 := rfl
  refine ⟨?_, ?_, ?_, ?_, ?_, ?_⟩
  · rw [h1, hμ, noopTasks_drop_200]
  · rw [h2]; rfl
  · rw [h3]; rfl
  · rw [h4]; rfl
  · rw [h5]; rfl
  · rw [h9, hμ]
    have hsl : c4State.steps.length = 0 := rfl
    have hnl : (noopTasks 201).length = 201 := by simp [noopTasks]
    rw [hsl, hnl]
    omega

set_option maxHeartbeats 1000000 in
set_option maxRecDepth 10000 in
/-- the browser loop on `c4State`: the first drain stops at the guard, a
later iteration finishes the leftover task, the loop terminates with no
error and the full 1005-step trace. -/
theorem c4_loop_facts :
    (browserLoop 1000 500 c4State).errors = [] ∧
    (browserLoop 1000 500 c4State).microtaskQueue = [] ∧
    (browserLoop 1000 500 c4State).steps.length = 5 * 201 := by
  obtain ⟨d1μ, d1e, d1mac, d1chk, d1web, d1len⟩ := c4_drain_facts
  -- iteration 1: drain hits the guard; no timers, no macrotasks
  rw [show (500 : Nat) = 499 + 1 from rfl, browserLoop_succ]
  rw [show hasPendingWork c4State = true from by
    simp [hasPendingWork, c4State, noopTasks]]
  simp only [Bool.not_true, Bool.false_eq_true, if_false,
    advanceTimers_noTimers _ d1web, d1mac, d1web, List.any_nil]
  -- iteration 2: the leftover task is drained
  have hpend1 : hasPendingWork (drainMicrotasks 1000 200 c4State) = true := by
    simp [hasPendingWork, d1μ]
  have hinv1 : ∀ t ∈ (drainMicrotasks 1000 200 c4State).microtaskQueue,
      t.callback = Callback.wrapped .invalid := by
    rw [d1μ]
    intro t ht
    simp at ht
    rw [ht]
    rfl
  have h2 := drainMicrotasks_noop 999 200 (drainMicrotasks 1000 200 c4State)
    hinv1
  simp only [show (999 : Nat) + 1 = 1000 from rfl] at h2
  obtain ⟨e1, e2, e3, e4, e5, _, _, _, e9⟩ := h2
  rw [browserLoop_succ, hpend1]
  have e5w : (drainMicrotasks 1000 200
      (drainMicrotasks 1000 200 c4State)).webAPIs = [] := by rw [e5, d1web]
  have e3m : (drainMicrotasks 1000 200
      (drainMicrotasks 1000 200 c4State)).macrotaskQueue = [] := by
    rw [e3, d1mac]
  simp only [Bool.not_true, Bool.false_eq_true, if_false,
    advanceTimers_noTimers _ e5w, e3m, e5w, List.any_nil]
  -- iteration 3: nothing pending, the loop stops
  have hpend2 : hasPendingWork (drainMicrotasks 1000 200
      (drainMicrotasks 1000 200 c4State)) = false := by
    simp [hasPendingWork, e1, d1μ, e3m, e4, d1chk, e5w]
  rw [browserLoop_succ, hpend2]
  simp only [Bool.not_false, if_true]
  refine ⟨?_, ?_, ?_⟩
  · rw [e2, d1e]
  · rw [e1, d1μ]
    rfl
  · rw [e9, d1len, d1μ]
    rfl

/-! ### Auxiliary list facts (used by the promise-heap lemmas) -/

theorem getq_append_left {α : Type} : ∀ (l l' : List α) (n : Nat),
    n < l.length → (l ++ l').get? n = l.get? n
  | [], _, n, h => absurd h (Nat.not_lt_zero n)
  | _ :: _, _, 0, _ => rfl
  | _ :: l, l', n + 1, h =>
      getq_append_left l l' n (Nat.lt_of_succ_lt_succ h)

theorem getq_set_ne {α : Type} : ∀ (l : List α) (i j : Nat) (a : α),
    i ≠ j → (l.set i a).get? j = l.get? j
  | [], _, _, _, _ => rfl
  | _ :: _, 0, 0, _, h => absurd rfl h
  | _ :: _, 0, _ + 1, _, _ => rfl
  | _ :: _, _ + 1, 0, _, _ => rfl
  | _ :: l, i + 1, j + 1, a, h =>
      getq_set_ne l i j a fun e => h (congrArg Nat.succ e)

theorem getq_set_self {α : Type} : ∀ (l : List α) (i : Nat) (a : α),
    i < l.length → (l.set i a).get? i = some a
  | [], i, _, h => absurd h (Nat.not_lt_zero i)
  | _ :: _, 0, _, _ => rfl
  | _ :: l, i + 1, a, h => getq_set_self l i a (Nat.lt_of_succ_lt_succ h)

theorem lt_of_getq_some {α : Type} : ∀ (l : List α) (n : Nat) (a : α),
    l.get? n = some a → n < l.length
  | [], _, _, h => Option.noConfusion h
  | _ :: _, 0, _, _ => Nat.succ_pos _
  | _ :: l, n + 1, a, h => Nat.succ_lt_succ (lt_of_getq_some l n a h)

/-! ### Unfolding equations of the promise-heap operations -/

theorem promiseResolve_zero (pid : Nat) (v : Value) (s : EngineState) :
    promiseResolve 0 pid v s = s := rfl

theorem promiseReject_zero (pid : Nat) (v : Value) (s : EngineState) :
    promiseReject 0 pid v s = s := rfl

theorem promiseThen_zero (pid : Nat) (onF onR : Option PCb)
    (s : EngineState) : (promiseThen 0 pid onF onR s).2 = s := rfl

theorem promiseFlush_zero (pid : Nat) (s : EngineState) :
    promiseFlush 0 pid s = s := rfl

/-- `SimPromise.resolve` at positive fuel, as written in the source. -/
theorem promiseResolve_succ (fuel pid : Nat) (v : Value) (s : EngineState) :
    promiseResolve (fuel + 1) pid v s =
      (match getPromise s pid with
       | none => s
       | some d =>
         if d.state ≠ .pending then s
         else
           match v with
           | .promise q =>
               (match getPromise s q with
                | none => s
                | some qd =>
                    match qd.state with
                    | .fulfilled => promiseResolve fuel pid qd.value s
                    | .rejected => promiseReject fuel pid qd.value s
                    | .pending =>
                        (promiseThen fuel q (some (.resolveTarget pid))
                          (some (.rejectTarget pid)) s).2)
           | _ =>
               let s := setPromise s pid
                 { d with state := .fulfilled, value := v }
               promiseFlush fuel pid s) := rfl

/-- `SimPromise.reject` at positive fuel. -/
theorem promiseReject_succ (fuel pid : Nat) (v : Value) (s : EngineState) :
    promiseReject (fuel + 1) pid v s =
      (match getPromise s pid with
       | none => s
       | some d =>
         if d.state ≠ .pending then s
         else
           let s := setPromise s pid { d with state := .rejected, value := v }
           promiseFlush fuel pid s) := rfl

/-- `SimPromise.then` at positive fuel (with the `(child, s)` pair of
`createPromise` written through its projections). -/
theorem promiseThen_succ (fuel pid : Nat) (onF onR : Option PCb)
    (s : EngineState) :
    promiseThen (fuel + 1) pid onF onR s =
      (match getPromise (createPromise s).2 pid with
       | none => ((createPromise s).1, (createPromise s).2)
       | some d =>
           if d.state ≠ .pending then
             ((createPromise s).1,
              promiseFlush fuel pid (setPromise (createPromise s).2 pid
                { d with
                    handlers :=
                      d.handlers ++ [⟨onF, onR, (createPromise s).1⟩] }))
           else
             ((createPromise s).1,
              setPromise (createPromise s).2 pid
                { d with
                    handlers :=
                      d.handlers ++ [⟨onF, onR, (createPromise s).1⟩] })) :=
  rfl

/-- `SimPromise._flush` at positive fuel. -/
theorem promiseFlush_succ (fuel pid : Nat) (s : EngineState) :
    promiseFlush (fuel + 1) pid s =
      (match getPromise s pid with
       | none => s
       | some d =>
         match d.handlers with
         | [] => s
         | h :: rest =>
             let s1 := setPromise s pid { d with handlers := rest }
             let isF := d.state = .fulfilled
             let s2 := scheduleMicrotask s1
               (if isF then "Promise.then" else "Promise.catch")
               (.promiseReaction (if isF then h.onFulfilled else h.onRejected)
                 h.childPromise isF d.value)
               "Promise"
             promiseFlush fuel pid s2) := rfl

/-! ### Conditional forms of the unfolding equations (scrutinees known) -/

theorem promiseResolve_succ_none (fuel pid : Nat) (v : Value)
    (s : EngineState) (h : getPromise s pid = none) :
    promiseResolve (fuel + 1) pid v s = s := by
  rw [promiseResolve_succ, h]

theorem promiseResolve_succ_some (fuel pid : Nat) (v : Value)
    (s : EngineState) (d : PromiseData) (h : getPromise s pid = some d) :
    promiseResolve (fuel + 1) pid v s =
      (if d.state ≠ .pending then s
       else
         match v with
         | .promise q =>
             (match getPromise s q with
              | none => s
              | some qd =>
                  match qd.state with
                  | .fulfilled => promiseResolve fuel pid qd.value s
                  | .rejected => promiseReject fuel pid qd.value s
                  | .pending =>
                      (promiseThen fuel q (some (.resolveTarget pid))
                        (some (.rejectTarget pid)) s).2)
         | _ =>
             promiseFlush fuel pid
               (setPromise s pid
                 { d with state := .fulfilled, value := v })) := by
  rw [promiseResolve_succ, h]

theorem promiseReject_succ_none (fuel pid : Nat) (v : Value)
    (s : EngineState) (h : getPromise s pid = none) :
    promiseReject (fuel + 1) pid v s = s := by
  rw [promiseReject_succ, h]

theorem promiseReject_succ_some (fuel pid : Nat) (v : Value)
    (s : EngineState) (d : PromiseData) (h : getPromise s pid = some d) :
    promiseReject (fuel + 1) pid v s =
      (if d.state ≠ .pending then s
       else promiseFlush fuel pid
         (setPromise s pid { d with state := .rejected, value := v })) := by
  rw [promiseReject_succ, h]

theorem promiseThen_succ_none (fuel pid : Nat) (onF onR : Option PCb)
    (s : EngineState) (h : getPromise (createPromise s).2 pid = none) :
    promiseThen (fuel + 1) pid onF onR s =
      ((createPromise s).1, (createPromise s).2) := by
  rw [promiseThen_succ, h]

theorem promiseThen_succ_some (fuel pid : Nat) (onF onR : Option PCb)
    (s : EngineState) (d : PromiseData)
    (h : getPromise (createPromise s).2 pid = some d) :
    promiseThen (fuel + 1) pid onF onR s =
      (if d.state ≠ .pending then
         ((createPromise s).1,
          promiseFlush fuel pid (setPromise (createPromise s).2 pid
            { d with
                handlers := d.handlers ++ [⟨onF, onR, (createPromise s).1⟩] }))
       else
         ((createPromise s).1,
          setPromise (createPromise s).2 pid
            { d with
                handlers :=
                  d.handlers ++ [⟨onF, onR, (createPromise s).1⟩] })) := by
  rw [promiseThen_succ, h]

theorem promiseFlush_succ_none (fuel pid : Nat) (s : EngineState)
    (h : getPromise s pid = none) : promiseFlush (fuel + 1) pid s = s := by
  rw [promiseFlush_succ, h]

theorem promiseFlush_succ_nil (fuel pid : Nat) (s : EngineState)
    (st : PState) (w : Value) (h : getPromise s pid = some ⟨st, w, []⟩) :
    promiseFlush (fuel + 1) pid s = s := by
  rw [promiseFlush_succ, h]

theorem promiseFlush_succ_cons (fuel pid : Nat) (s : EngineState)
    (st : PState) (w : Value) (hd : Handler) (rest : List Handler)
    (h : getPromise s pid = some ⟨st, w, hd :: rest⟩) :
    promiseFlush (fuel + 1) pid s =
      promiseFlush fuel pid
        (scheduleMicrotask (setPromise s pid ⟨st, w, rest⟩)
          (if st = .fulfilled then "Promise.then" else "Promise.catch")
          (.promiseReaction
            (if st = .fulfilled then hd.onFulfilled else hd.onRejected)
            hd.childPromise (st = PState.fulfilled) w)
          "Promise") := by
  rw [promiseFlush_succ, h]

/-! ### Settled promises are preserved by the promise-heap operations -/

theorem settledPreserved_refl (s : EngineState) : settledPreserved s s :=
  fun _ _ _ hs h _ => ⟨hs, h⟩

theorem settledPreserved_trans {s₁ s₂ s₃ : EngineState}
    (h₁ : settledPreserved s₁ s₂) (h₂ : settledPreserved s₂ s₃) :
    settledPreserved s₁ s₃ := by
  intro pid st v hs hget hne
  obtain ⟨hs₂, hget₂⟩ := h₁ pid st v hs hget hne
  exact h₂ pid st v hs₂ hget₂ hne

theorem settledPreserved_of_promises_eq {s s₂ : EngineState}
    (h : s₂.promises = s.promises) : settledPreserved s s₂ := by
  intro pid st v hs hget hne
  refine ⟨hs, ?_⟩
  show s₂.promises.get? pid = _
  rw [h]
  exact hget

theorem scheduleMicrotask_promises (s : EngineState) (label : String)
    (cb : Callback) (source : String) :
    (scheduleMicrotask s label cb source).promises = s.promises := by
  simp only [scheduleMicrotask]
  split <;> rfl

theorem settledPreserved_createPromise (s : EngineState) :
    settledPreserved s (createPromise s).2 := by
  intro pid st v hs hget hne
  refine ⟨hs, ?_⟩
  show (s.promises ++ ([⟨.pending, .undef, []⟩] : List PromiseData)).get? pid
    = _
  rw [getq_append_left s.promises _ pid (lt_of_getq_some _ _ _ hget)]
  exact hget

/-- overwriting a pending entry cannot disturb any settled entry. -/
theorem settledPreserved_setPromise_pending (s : EngineState) (p : Nat)
    (d d₂ : PromiseData) (h : getPromise s p = some d)
    (hp : d.state = PState.pending) :
    settledPreserved s (setPromise s p d₂) := by
  intro pid st v hs hget hne
  by_cases hpq : p = pid
  · subst hpq
    rw [h] at hget
    injection hget with e
    rw [e] at hp
    exact absurd hp hne
  · refine ⟨hs, ?_⟩
    show (s.promises.set p d₂).get? pid = _
    rw [getq_set_ne s.promises p pid d₂ hpq]
    exact hget

/-- replacing only the handler list keeps the state and value. -/
theorem settledPreserved_setHandlers (s : EngineState) (p : Nat)
    (d : PromiseData) (hs₂ : List Handler) (h : getPromise s p = some d) :
    settledPreserved s (setPromise s p ⟨d.state, d.value, hs₂⟩) := by
  intro pid st v hs hget hne
  by_cases hpq : p = pid
  · subst hpq
    rw [h] at hget
    injection hget with e
    refine ⟨hs₂, ?_⟩
    show (s.promises.set p ⟨d.state, d.value, hs₂⟩).get? p = _
    rw [getq_set_self s.promises p _ (lt_of_getq_some _ _ _ h), e]
  · refine ⟨hs, ?_⟩
    show (s.promises.set p _).get? pid = _
    rw [getq_set_ne s.promises p pid _ hpq]
    exact hget

/-- every promise-heap operation preserves the state and value of every
settled promise, at every fuel. -/
theorem promiseOps_preserve (fuel : Nat) :
    (∀ pid v s, settledPreserved s (promiseResolve fuel pid v s)) ∧
    (∀ pid v s, settledPreserved s (promiseReject fuel pid v s)) ∧
    (∀ pid onF onR s, settledPreserved s (promiseThen fuel pid onF onR s).2) ∧
    (∀ pid s, settledPreserved s (promiseFlush fuel pid s)) := by
  induction fuel with
  | zero =>
      exact ⟨fun _ _ s => settledPreserved_refl s,
        fun _ _ s => settledPreserved_refl s,
        fun _ _ _ s => settledPreserved_refl s,
        fun _ s => settledPreserved_refl s⟩
  | succ g ih =>
      obtain ⟨ihR, ihJ, ihT, ihF⟩ := ih
      refine ⟨?_, ?_, ?_, ?_⟩
      · intro pid v s
        cases hgp : getPromise s pid with
        | none =>
            rw [promiseResolve_succ_none g pid v s hgp]
            exact settledPreserved_refl s
        | some d =>
            rw [promiseResolve_succ_some g pid v s d hgp]
            by_cases hpd : d.state = PState.pending
            · rw [if_neg (not_not_intro hpd)]
              cases v
              all_goals try
                exact settledPreserved_trans
                  (settledPreserved_setPromise_pending s pid d _ hgp hpd)
                  (ihF pid _)
              rename_i q
              dsimp only
              cases hgq : getPromise s q with
              | none => exact settledPreserved_refl s
              | some qd =>
                  obtain ⟨qst, qv, qhs⟩ := qd
                  dsimp only
                  cases qst with
                  | fulfilled => exact ihR pid qv s
                  | rejected => exact ihJ pid qv s
                  | pending => exact ihT q _ _ s
            · rw [if_pos hpd]
              exact settledPreserved_refl s
      · intro pid v s
        cases hgp : getPromise s pid with
        | none =>
            rw [promiseReject_succ_none g pid v s hgp]
            exact settledPreserved_refl s
        | some d =>
            rw [promiseReject_succ_some g pid v s d hgp]
            by_cases hpd : d.state = PState.pending
            · rw [if_neg (not_not_intro hpd)]
              exact settledPreserved_trans
                (settledPreserved_setPromise_pending s pid d _ hgp hpd)
                (ihF pid _)
            · rw [if_pos hpd]
              exact settledPreserved_refl s
      · intro pid onF onR s
        cases hgp : getPromise (createPromise s).2 pid with
        | none =>
            rw [promiseThen_succ_none g pid onF onR s hgp]
            exact settledPreserved_createPromise s
        | some d =>
            rw [promiseThen_succ_some g pid onF onR s d hgp]
            by_cases hpd : d.state = PState.pending
            · rw [if_neg (not_not_intro hpd)]
              exact settledPreserved_trans
                (settledPreserved_createPromise s)
                (settledPreserved_setHandlers (createPromise s).2 pid d _ hgp)
            · rw [if_pos hpd]
              exact settledPreserved_trans (settledPreserved_trans
                (settledPreserved_createPromise s)
                (settledPreserved_setHandlers (createPromise s).2 pid d _ hgp))
                (ihF pid _)
      · intro pid s
        cases hgp : getPromise s pid with
        | none =>
            rw [promiseFlush_succ_none g pid s hgp]
            exact settledPreserved_refl s
        | some d =>
            obtain ⟨st, w, hls⟩ := d
            cases hls with
            | nil =>
                rw [promiseFlush_succ_nil g pid s st w hgp]
                exact settledPreserved_refl s
            | cons hd rest =>
                rw [promiseFlush_succ_cons g pid s st w hd rest hgp]
                exact settledPreserved_trans (settledPreserved_trans
                  (settledPreserved_setHandlers s pid ⟨st, w, hd :: rest⟩ rest
                    hgp)
                  (settledPreserved_of_promises_eq
                    (scheduleMicrotask_promises _ _ _ _)))
                  (ihF pid _)

/-- `SimPromise.resolve` on an already-settled promise is a no-op, at
every fuel. -/
theorem promiseResolve_settled (fuel pid : Nat) (v : Value) (s : EngineState)
    (d : PromiseData) (h : getPromise s pid = some d)
    (hd : d.state ≠ PState.pending) : promiseResolve fuel pid v s = s := by
  cases fuel with
  | zero => rfl
  | succ g =>
      rw [promiseResolve_succ_some g pid v s d h, if_pos hd]

/-- `SimPromise.reject` on an already-settled promise is a no-op, at
every fuel. -/
theorem promiseReject_settled (fuel pid : Nat) (v : Value) (s : EngineState)
    (d : PromiseData) (h : getPromise s pid = some d)
    (hd : d.state ≠ PState.pending) : promiseReject fuel pid v s = s := by
  cases fuel with
  | zero => rfl
  | succ g =>
      rw [promiseReject_succ_some g pid v s d h, if_pos hd]

theorem applyPOp_preserve (fuel : Nat) (op : POp) (s : EngineState) :
    settledPreserved s (applyPOp fuel op s) := by
  cases op with
  | resolve p v => exact (promiseOps_preserve fuel).1 p v s
  | reject p v => exact (promiseOps_preserve fuel).2.1 p v s

theorem applyPOps_preserve (fuel : Nat) (ops : List POp) :
    ∀ s : EngineState, settledPreserved s (applyPOps fuel ops s) := by
  induction ops with
  | nil => intro s; exact settledPreserved_refl s
  | cons op rest ih =>
      intro s
      rw [applyPOps]
      exact settledPreserved_trans (applyPOp_preserve fuel op s) (ih _)

/-! ### Timer-clearing facts (claim C10) -/

/-- a clear call whose id matches no registered timer changes nothing. -/
theorem markCleared_no_match : ∀ (ws : List WebAPIEntry) (id : Nat),
    (∀ w ∈ ws, w.id ≠ id) → markCleared id ws = ws
  | [], _, _ => rfl
  | w :: ws, id, h => by
      rw [markCleared, if_neg (h w (List.mem_cons_self w ws)),
        markCleared_no_match ws id fun u hu => h u (List.mem_cons_of_mem w hu)]

/-- `markCleared` marks the first entry carrying the id — with no look at
whether the entry is a timeout or an interval. -/
theorem markCleared_first : ∀ (pre : List WebAPIEntry) (w : WebAPIEntry)
    (post : List WebAPIEntry) (id : Nat),
    (∀ u ∈ pre, u.id ≠ id) → w.id = id →
    markCleared id (pre ++ w :: post) =
      pre ++ { w with cleared := true } :: post
  | [], w, post, id, _, hw => by
      rw [List.nil_append, markCleared, if_pos hw, List.nil_append]
  | u :: pre, w, post, id, h, hw => by
      rw [List.cons_append, markCleared,
        if_neg (h u (List.mem_cons_self u pre)),
        markCleared_first pre w post id
          (fun x hx => h x (List.mem_cons_of_mem u hx)) hw,
        List.cons_append]

theorem scenario1_steps_o3 :
    stepsData (run 1000 .browser progScenario1 [3]) = scenario1StepData :=
  rfl

theorem scenario1_steps_o9 :
    stepsData (run 1000 .browser progScenario1 [9]) = scenario1StepData :=
  rfl

/-- one browser-loop iteration on the interval workload: six steps are
appended, the step and task counters advance, and the state is otherwise
restored (the interval reschedules at the same virtual time). -/
theorem ivState_iter (k sid tid : Nat) (steps : List Step) :
    browserLoop 1000 (k + 1) (ivState steps sid tid) =
      browserLoop 1000 k
        (ivState ((((((steps ++ [ivResolveStep]) ++ [ivSchedStep tid]) ++
          [ivDeqStep tid]) ++ [ivExecStep tid]) ++ [ivPushStep sid]) ++
          [ivPopStep sid]) (sid + 1) (tid + 1)) := rfl

/-- the browser loop on the interval workload consumes its whole
iteration budget: after `k` iterations no error has been surfaced, work
is still pending, and the trace has grown by 6 steps per iteration. -/
theorem ivLoop_facts (k : Nat) : ∀ (steps : List Step) (sid tid : Nat),
    (browserLoop 1000 k (ivState steps sid tid)).errors = [] ∧
    hasPendingWork (browserLoop 1000 k (ivState steps sid tid)) = true ∧
    (browserLoop 1000 k (ivState steps sid tid)).steps.length =
      steps.length + 6 * k := by
  induction k with
  | zero =>
      intro steps sid tid
      exact ⟨rfl, rfl, rfl⟩
  | succ k ih =>
      intro steps sid tid
      rw [ivState_iter]
      obtain ⟨h1, h2, h3⟩ := ih
        ((((((steps ++ [ivResolveStep]) ++ [ivSchedStep tid]) ++
          [ivDeqStep tid]) ++ [ivExecStep tid]) ++ [ivPushStep sid]) ++
          [ivPopStep sid]) (sid + 1) (tid + 1)
      refine ⟨h1, h2, ?_⟩
      rw [h3]
      simp only [List.length_append, List.length_cons, List.length_nil]
      omega

/-! ## Claim theorems -/

/-- Claim C1 (counterexample): the claim says the source
`async function f(){console.log("s"); await Promise.resolve();
console.log("e");} console.log("1"); f(); console.log("2");` emits the
console stream `1, s, 2, e`.  It does not: awaiting an already-fulfilled
promise continues inline (`_evalExprStmtAwait` returns the value without
suspending), so `e` is printed before the remaining top-level code. -/
theorem C1_counterexample :
    consoleStream (run 1000 .browser progAsyncF []) ≠
      [["1"], ["s"], ["2"], ["e"]] := by
  decide

/-- Claim C1 (amended): the emitted console stream of scenario 3 is
exactly `1, s, e, 2` — a fulfilled `await` proceeds inline with no extra
microtask tick, so the statement after the await runs before the remaining
synchronous top-level code; no error is surfaced. -/
theorem C1_amended :
    consoleStream (run 1000 .browser progAsyncF []) =
      [["1"], ["s"], ["e"], ["2"]] ∧
    consoleIsAllLogs (run 1000 .browser progAsyncF []) = true ∧
    (run 1000 .browser progAsyncF []).errors = [] :=
  ⟨rfl, rfl, rfl⟩

/-- Claim C2: when a native built-in throws during a call, the frame the
native-call path of `evalCall` pushed is never popped: running
`Promise(() => { throw "boom"; });` pushes three frames but pops only
two, and the `<global>` PUSH_STACK has no matching POP_STACK — the
claimed push/pop matching fails (the prefix property itself holds). -/
theorem C2_native_throw_unbalanced :
    pushIds (run 1000 .browser progNativeThrow []) =
      ["frame-1", "frame-2", "frame-3"] ∧
    popIds (run 1000 .browser progNativeThrow []) =
      ["frame-3", "frame-2"] ∧
    stackMatched (run 1000 .browser progNativeThrow []) = false ∧
    stackPrefixOk (run 1000 .browser progNativeThrow []) = true ∧
    (run 1000 .browser progNativeThrow []).errors = ["boom"] := by
  refine ⟨rfl, rfl, by decide, by decide, rfl⟩

/-- Claim C3: scenario 1 in browser mode emits exactly the console stream
`A, D, C, B` — synchronous code first, then the Promise microtask, then
the 0 ms timer macrotask; all entries are plain logs and no error is
surfaced. -/
theorem C3_scenario1_stream :
    consoleStream (run 1000 .browser progScenario1 []) =
      [["A"], ["D"], ["C"], ["B"]] ∧
    consoleIsAllLogs (run 1000 .browser progScenario1 []) = true ∧
    (run 1000 .browser progScenario1 []).errors = [] :=
  ⟨rfl, rfl, rfl⟩

/-- Claim C5 (counterexample): in the scenario-1 trace a `.then()` handler
is scheduled with label `.then()` and no id, and fires (its
EXECUTE_MICROTASK appears, under the task label `Promise.then`), but no
DEQUEUE_MICROTASK with label `.then()` ever occurs — so the claimed
id-or-label matching between SCHEDULE and DEQUEUE fails for `.then()`
microtasks. -/
theorem C5_counterexample :
    ((sigsOf (run 1000 .browser progScenario1 [])).any fun g =>
        decide (g.type = .SCHEDULE_MICROTASK) &&
        decide (g.label = some ".then()") &&
        decide (g.idStr = none) && decide (g.idNum = none)) = true ∧
    ((sigsOf (run 1000 .browser progScenario1 [])).any fun g =>
        decide (g.type = .EXECUTE_MICROTASK) &&
        decide (g.label = some "Promise.then")) = true ∧
    ((sigsOf (run 1000 .browser progScenario1 [])).any fun g =>
        decide (g.type = .DEQUEUE_MICROTASK) &&
        decide (g.label = some ".then()")) = false := by
  refine ⟨by decide, by decide, by decide⟩

/-- Claim C5 (amended): the engine's macrotask schedulers emit one
SCHEDULE_MACROTASK step carrying the fresh task id (proved for every
state for `scheduleMacrotask` and `scheduleCheck`), but schedule steps
are not always id-bearing: the `requestAnimationFrame` builtin emits a
second, id-less SCHEDULE_MACROTASK for the same task (proved for every
state), and in the rAF run that task fires — its DEQUEUE/EXECUTE steps
(id `macro-1`, positions 8/9) follow the id-bearing schedule (position
4) and the id-less one (position 5).  Microtask SCHEDULE steps carry no
id (none does in the scenario-1 trace), and a `.then()` handler is
scheduled under label `.then()` (position 15) but dequeued and executed
under `Promise.then` (positions 23/24); the scenario-1 timer macrotask
`macro-2` matches by id in SCHEDULE < DEQUEUE < EXECUTE order
(positions 35/36/37). -/
theorem C5_amended :
    (∀ (s : EngineState) (label : String) (cb : Callback) (source : String),
        (scheduleMacrotask s label cb source).steps =
          s.steps ++
            [{ type := .SCHEDULE_MACROTASK
               payload := { idStr := some s!"macro-{s.taskId + 1}"
                            label := some label
                            source := some source }
               timestamp := s.currentTime }]) ∧
    (∀ (s : EngineState) (label : String) (cb : Callback) (source : String),
        (scheduleCheck s label cb source).steps =
          s.steps ++
            [{ type := .SCHEDULE_MACROTASK
               payload := { idStr := some s!"check-{s.taskId + 1}"
                            label := some label
                            source := some source }
               timestamp := s.currentTime }]) ∧
    (∀ (fuel : Nat) (args : List Value) (s : EngineState),
        (callNative (fuel + 1) .requestAnimationFrameN args s).2.steps =
          (s.steps ++
            [{ type := .SCHEDULE_MACROTASK
               payload := { idStr := some s!"macro-{s.taskId + 1}"
                            label := some "requestAnimationFrame"
                            source := some "rAF" }
               timestamp := s.currentTime }]) ++
          [{ type := .SCHEDULE_MACROTASK
             payload := { label := some "requestAnimationFrame" }
             timestamp := s.currentTime }]) ∧
    ((sigsOf (run 1000 .browser progRAF [])).findIdx? (fun g =>
        decide (g.type = .SCHEDULE_MACROTASK) &&
        decide (g.idStr = some "macro-1")) = some 4) ∧
    ((sigsOf (run 1000 .browser progRAF [])).findIdx? (fun g =>
        decide (g.type = .SCHEDULE_MACROTASK) &&
        decide (g.idStr = none)) = some 5) ∧
    ((sigsOf (run 1000 .browser progRAF [])).findIdx? (fun g =>
        decide (g.type = .DEQUEUE_MACROTASK) &&
        decide (g.idStr = some "macro-1")) = some 8) ∧
    ((sigsOf (run 1000 .browser progRAF [])).findIdx? (fun g =>
        decide (g.type = .EXECUTE_MACROTASK) &&
        decide (g.idStr = some "macro-1")) = some 9) ∧
    consoleStream (run 1000 .browser progRAF []) = [["R"]] ∧
    (run 1000 .browser progRAF []).errors = [] ∧
    ((sigsOf (run 1000 .browser progScenario1 [])).all fun g =>
        !(decide (g.type = .SCHEDULE_MICROTASK)) ||
        (decide (g.idStr = none) && decide (g.idNum = none))) = true ∧
    ((sigsOf (run 1000 .browser progScenario1 [])).findIdx? fun g =>
        decide (g.type = .SCHEDULE_MICROTASK) &&
        decide (g.label = some ".then()")) = some 15 ∧
    ((sigsOf (run 1000 .browser progScenario1 [])).findIdx? fun g =>
        decide (g.type = .DEQUEUE_MICROTASK) &&
        decide (g.label = some "Promise.then")) = some 23 ∧
    ((sigsOf (run 1000 .browser progScenario1 [])).findIdx? fun g =>
        decide (g.type = .EXECUTE_MICROTASK) &&
        decide (g.label = some "Promise.then")) = some 24 ∧
    ((sigsOf (run 1000 .browser progScenario1 [])).findIdx? fun g =>
        decide (g.type = .SCHEDULE_MACROTASK) &&
        decide (g.idStr = some "macro-2")) = some 35 ∧
    ((sigsOf (run 1000 .browser progScenario1 [])).findIdx? fun g =>
        decide (g.type = .DEQUEUE_MACROTASK) &&
        decide (g.idStr = some "macro-2")) = some 36 ∧
    ((sigsOf (run 1000 .browser progScenario1 [])).findIdx? fun g =>
        decide (g.type = .EXECUTE_MACROTASK) &&
        decide (g.idStr = some "macro-2")) = some 37 := by
  refine ⟨fun s label cb source => rfl, fun s label cb source => rfl,
    fun fuel args s => rfl, by decide, by decide, by decide, by decide,
    rfl, rfl, by decide, by decide, by decide, by decide, by decide,
    by decide, by decide⟩

/-- Claim C7 (counterexample): for `try { throw "boom"; } finally
{ console.log("fin"); }` with no catch clause, the thrown value does
NOT propagate to the caller: `evalTry` swallows it and completes with
undefined (the TS `catch (err)` has no rethrow when `node.handler` is
absent), so the enclosing function continues, `after` is printed and no
error is surfaced.  The finally block does run. -/
theorem C7_counterexample :
    (evaluate 1000
        (Node.tryStmt [.throwStmt (.lit (.str "boom")) 1] none none
          (some [.exprStmt (logS "fin") 1]) 1) 0 none
        (createGlobalEnvS (initState .browser []) .browser).2).1 =
      Res.val .undef ∧
    consoleStream (run 1000 .browser progTryFinallyThrow []) =
      [["fin"], ["after"]] ∧
    (run 1000 .browser progTryFinallyThrow []).errors = [] :=
  ⟨rfl, rfl, rfl⟩

/-- Claim C7 (amended): the finally block always executes — including when
the try block completes with Throw (the `fin` log) or Return (the `F` log,
after which the Return value still propagates) — but a value thrown inside
a try with no catch clause is swallowed by `evalTry` (which completes with
undefined) instead of propagating to the caller. -/
theorem C7_amended :
    (evaluate 1000
        (Node.tryStmt [.throwStmt (.lit (.str "boom")) 1] none none
          (some [.exprStmt (logS "fin") 1]) 1) 0 none
        (createGlobalEnvS (initState .browser []) .browser).2).1 =
      Res.val .undef ∧
    consoleStream (run 1000 .browser progTryFinallyThrow []) =
      [["fin"], ["after"]] ∧
    (run 1000 .browser progTryFinallyThrow []).errors = [] ∧
    consoleStream (run 1000 .browser progTryFinallyReturn []) =
      [["F"], ["1"]] ∧
    (run 1000 .browser progTryFinallyReturn []).errors = [] :=
  ⟨rfl, rfl, rfl, rfl, rfl⟩

/-- Claim C8 (counterexample): determinism does NOT extend to sources that
call `Math.random` — the builtin exposes the host RNG (modelled by the
oracle), so `console.log(Math.random());` yields different step streams
under different host randomness. -/
theorem C8_counterexample :
    consoleStream (run 1000 .browser progMathRandom [7]) ≠
      consoleStream (run 1000 .browser progMathRandom [8]) := by
  decide

/-- Claim C8 (amended): running the same source twice in the same mode
yields byte-identical step streams provided the run never consults the
host-nondeterministic built-ins (`Math.random`, the host `Date`): two
scenario-1 runs under different host randomness produce identical step
data and identical console output, while a source calling `Math.random`
echoes whatever the host returns. -/
theorem C8_amended :
    stepsData (run 1000 .browser progScenario1 [3]) =
      stepsData (run 1000 .browser progScenario1 [9]) ∧
    consoleStream (run 1000 .browser progScenario1 [3]) =
      [["A"], ["D"], ["C"], ["B"]] ∧
    consoleStream (run 1000 .browser progScenario1 [9]) =
      [["A"], ["D"], ["C"], ["B"]] ∧
    consoleStream (run 1000 .browser progMathRandom [7]) = [["7"]] ∧
    consoleStream (run 1000 .browser progMathRandom [8]) = [["8"]] :=
  ⟨scenario1_steps_o3.trans scenario1_steps_o9.symm, rfl, rfl, rfl, rfl⟩

/-- Claim C4 (counterexample): hitting the per-drain 200-task cap does
NOT surface an error — the drain stops silently with a task still queued
(`c4State` holds 201 queued microtasks), and the browser loop that
finishes the run ends with an empty errors list. -/
theorem C4_counterexample :
    (drainMicrotasks 1000 200 c4State).microtaskQueue ≠ [] ∧
    (drainMicrotasks 1000 200 c4State).errors = [] ∧
    (browserLoop 1000 500 c4State).errors = [] := by
  obtain ⟨h1, h2, _, _, _, _⟩ := c4_drain_facts
  obtain ⟨l1, _, _⟩ := c4_loop_facts
  refine ⟨?_, h2, l1⟩
  rw [h1]
  exact fun hc => List.noConfusion hc

/-- Claim C4 (amended): both caps are silent safety guards.  Per-drain
cap: on a queue of 201 no-op microtasks the drain stops at 200 tasks
leaving one queued, appends no error, and keeps the partial trace; the
enclosing browser loop finishes the leftover on its next iteration and
terminates with no error and the full trace.  Outer cap: a loop whose
iteration budget is exhausted returns the accumulated state unchanged
(for every state and fuel), and on a live 0 ms interval the full
500-iteration budget is consumed (6 trace steps per iteration) with work
still pending and no error surfaced. -/
theorem C4_amended :
    (drainMicrotasks 1000 200 c4State).microtaskQueue = [noopTask 200] ∧
    (drainMicrotasks 1000 200 c4State).errors = [] ∧
    (drainMicrotasks 1000 200 c4State).steps.length = 1000 ∧
    (browserLoop 1000 500 c4State).errors = [] ∧
    (browserLoop 1000 500 c4State).microtaskQueue = [] ∧
    (browserLoop 1000 500 c4State).steps.length = 5 * 201 ∧
    (∀ (fuel : Nat) (s : EngineState), browserLoop fuel 0 s = s) ∧
    (browserLoop 1000 500 c4IntervalState).errors = [] ∧
    hasPendingWork (browserLoop 1000 500 c4IntervalState) = true ∧
    (browserLoop 1000 500 c4IntervalState).steps.length = 6 * 500 := by
  obtain ⟨h1, h2, _, _, _, h6⟩ := c4_drain_facts
  obtain ⟨l1, l2, l3⟩ := c4_loop_facts
  obtain ⟨i1, i2, i3⟩ := ivLoop_facts 500 [] 0 0
  exact ⟨h1, h2, h6, l1, l2, l3, fun _ _ => rfl, i1, i2, i3⟩

/-- Claim C6: settlement is one-way.  Once a promise is fulfilled or
rejected, every later `resolve` or `reject` call on it is a no-op, and no
interleaving of settlement calls on the heap (including resolving with
another promise) ever changes its state or stored value — only its
handler list may change. -/
theorem C6_settlement_one_way (fuel : Nat) (s : EngineState) (pid : Nat)
    (st : PState) (v : Value) (hs : List Handler)
    (hget : getPromise s pid = some ⟨st, v, hs⟩)
    (hst : st ≠ PState.pending) :
    (∀ w, promiseResolve fuel pid w s = s) ∧
    (∀ w, promiseReject fuel pid w s = s) ∧
    (∀ ops : List POp, ∃ hs₂,
        getPromise (applyPOps fuel ops s) pid = some ⟨st, v, hs₂⟩) :=
  ⟨fun w => promiseResolve_settled fuel pid w s ⟨st, v, hs⟩ hget hst,
   fun w => promiseReject_settled fuel pid w s ⟨st, v, hs⟩ hget hst,
   fun ops => applyPOps_preserve fuel ops s pid st v hs hget hst⟩

/-- Claim C6 (witness): the theorem applied to a concrete heap holding a
fulfilled promise, against a concrete interleaving that resolves another
promise with it and then tries to reject and re-resolve it. -/
theorem C6_settlement_one_way_witness :
    promiseResolve 5 0 (.num 3) promiseWitnessState = promiseWitnessState ∧
    promiseReject 5 0 (.str "x") promiseWitnessState = promiseWitnessState ∧
    ∃ hs₂,
      getPromise
        (applyPOps 5
          [.resolve 1 (.promise 0), .reject 0 (.str "y"), .resolve 0 .undef]
          promiseWitnessState) 0 = some ⟨.fulfilled, .num 7, hs₂⟩ := by
  have h := C6_settlement_one_way 5 promiseWitnessState 0 .fulfilled
    (.num 7) [] rfl (by decide)
  exact ⟨h.1 (.num 3), h.2.1 (.str "x"), h.2.2 _⟩

/-- Claim C9: `process.nextTick` inserts at the very front of the
microtask queue while every other source appends, so nextTick callbacks
scheduled in one synchronous stretch run in reverse order of scheduling
and all precede ordinary Promise microtasks: the node run of
`process.nextTick(N1); process.nextTick(N2); Promise.resolve().then(P)`
logs `N2, N1, P`. -/
theorem C9_nextTick_lifo :
    (∀ (s : EngineState) (label : String) (cb : Callback),
        (scheduleMicrotask s label cb "process.nextTick").microtaskQueue =
          ⟨s!"micro-{s.taskId + 1}", label, cb, "process.nextTick"⟩ ::
            s.microtaskQueue) ∧
    (∀ (s : EngineState) (label : String) (cb : Callback) (source : String),
        source ≠ "process.nextTick" →
        (scheduleMicrotask s label cb source).microtaskQueue =
          s.microtaskQueue ++
            [⟨s!"micro-{s.taskId + 1}", label, cb, source⟩]) ∧
    consoleStream (run 1000 .node progNextTick []) =
      [["N2"], ["N1"], ["P"]] ∧
    consoleIsAllLogs (run 1000 .node progNextTick []) = true := by
  refine ⟨fun s label cb => rfl, fun s label cb source h => ?_, rfl, rfl⟩
  simp only [scheduleMicrotask]
  rw [if_neg h]

/-- Claim C9 (witness): the general scheduling facts applied at concrete
states — a nextTick task lands in front of an occupied queue, a Promise
task is appended behind it. -/
theorem C9_nextTick_lifo_witness :
    (scheduleMicrotask (initState .node []) "n1" (.wrapped .invalid)
        "process.nextTick").microtaskQueue =
      [⟨"micro-1", "n1", .wrapped .invalid, "process.nextTick"⟩] ∧
    (scheduleMicrotask (initState .node []) "p1" (.wrapped .invalid)
        "Promise").microtaskQueue =
      [⟨"micro-1", "p1", .wrapped .invalid, "Promise"⟩] :=
  ⟨C9_nextTick_lifo.1 (initState .node []) "n1" (.wrapped .invalid),
   C9_nextTick_lifo.2.1 (initState .node []) "p1" (.wrapped .invalid)
     "Promise" (by decide)⟩

/-- Claim C10: `clearTimeout` and `clearInterval` are the same native
operation; a clear call marks the first timer entry carrying the id
cleared with no regard to whether it is a timeout or an interval; and a
call matching no registered timer returns undefined and leaves the state
untouched. -/
theorem C10_clear_equiv :
    (∀ (fuel : Nat) (args : List Value) (s : EngineState),
        callNative fuel .clearTimeoutN args s =
          callNative fuel .clearIntervalN args s) ∧
    (∀ (pre : List WebAPIEntry) (w : WebAPIEntry) (post : List WebAPIEntry)
        (id : Nat), (∀ u ∈ pre, u.id ≠ id) → w.id = id →
        markCleared id (pre ++ w :: post) =
          pre ++ { w with cleared := true } :: post) ∧
    (∀ (s : EngineState) (id : Nat), (∀ w ∈ s.webAPIs, w.id ≠ id) →
        clearTimer s id = s) ∧
    (∀ (fuel n : Nat) (s : EngineState), (∀ w ∈ s.webAPIs, w.id ≠ n) →
        callNative (fuel + 1) .clearTimeoutN [.num (Int.ofNat n)] s =
          (.val .undef, s)) := by
  refine ⟨fun fuel args s => ?_, markCleared_first, fun s id h => ?_,
    fun fuel n s h => ?_⟩
  · cases fuel with
    | zero => rfl
    | succ g => rfl
  · show { s with webAPIs := markCleared id s.webAPIs } = s
    rw [markCleared_no_match s.webAPIs id h]
  · have hc : clearTimerArg s (.num (Int.ofNat n)) = s := by
      show { s with webAPIs := markCleared n s.webAPIs } = s
      rw [markCleared_no_match s.webAPIs n h]
    calc callNative (fuel + 1) .clearTimeoutN [.num (Int.ofNat n)] s
        = (.val .undef, clearTimerArg s (.num (Int.ofNat n))) := rfl
      _ = (.val .undef, s) := by rw [hc]

/-- Claim C10 (witness): on a table holding a timeout (id 1) and an
interval (id 2), clearing id 2 — the interval — marks it cleared past the
non-matching timeout entry, and a clear call for the unregistered id 99
returns undefined leaving the state unchanged; the native equivalence is
applied at the same concrete call. -/
theorem C10_clear_equiv_witness :
    callNative 3 .clearTimeoutN [.num 2] c10State =
      callNative 3 .clearIntervalN [.num 2] c10State ∧
    markCleared 2 ([c10Timeout] ++ c10Interval :: []) =
      [c10Timeout] ++ { c10Interval with cleared := true } :: [] ∧
    clearTimer c10State 99 = c10State ∧
    callNative 3 .clearTimeoutN [.num (Int.ofNat 99)] c10State =
      (.val .undef, c10State) :=
  ⟨C10_clear_equiv.1 3 [.num 2] c10State,
   C10_clear_equiv.2.1 [c10Timeout] c10Interval [] 2 (by decide) rfl,
   C10_clear_equiv.2.2.1 c10State 99 (by decide),
   C10_clear_equiv.2.2.2 2 99 c10State (by decide)⟩

end JSRT
